import Mathlib

/-!
Shallow embedding of the x402-connector payment core
(`src/x402_connector/core/{facilitators.py, facilitators_solana.py,
processor.py, config.py}`) and proofs about it.

Python dictionaries coming from JSON are modelled structurally: each dict
key the source reads becomes an `Option PyVal` field (`Option.none` models an
absent key).  Python exceptions are modelled with `Except String`; a
`try/except` becomes a `match`.  Calls into external libraries
(`eth_account`, `solders`, `web3`, `httpx`, the `x402` helper package) and
the wall clock are parameters ("environments"), one function per call site,
returning `Except String` where the library call can raise.
-/

namespace X402

/-- Python scalar values that can appear in a JSON-decoded payment payload. -/
inductive PyVal where
  | none
  | str (s : String)
  | int (n : Int)
  | bool (b : Bool)
deriving DecidableEq, Repr

/-- Python truthiness (`if x:`) for the modelled scalar values. -/
def pyTruthy : PyVal → Bool
  | PyVal.none => false
  | PyVal.str s => s ≠ ""
  | PyVal.int n => n ≠ 0
  | PyVal.bool b => b

/-- Python `str(x)` for the modelled scalar values. -/
def pyStr : PyVal → String
  | PyVal.none => "None"
  | PyVal.str s => s
  | PyVal.int n => toString n
  | PyVal.bool b => if b then "True" else "False"

/-- Python `==` between the modelled scalar values (`True == 1` in Python). -/
def pyEq : PyVal → PyVal → Bool
  | PyVal.none, PyVal.none => true
  | PyVal.str a, PyVal.str b => a == b
  | PyVal.int a, PyVal.int b => a == b
  | PyVal.bool a, PyVal.bool b => a == b
  | PyVal.bool a, PyVal.int b => (if a then (1 : Int) else 0) == b
  | PyVal.int a, PyVal.bool b => a == (if b then (1 : Int) else 0)
  | _, _ => false

/-- `dict.get(key)` result with `None` default: absent key becomes `None`. -/
def getPy (o : Option PyVal) : PyVal := o.getD PyVal.none

/-- One decimal digit, or `Option.none` for a non-digit character. -/
def digitVal (c : Char) : Option Nat :=
  if c.isDigit then Option.some (c.toNat - '0'.toNat) else Option.none

/-- Digits of a decimal literal, or `Option.none` if empty or non-digit. -/
def digitsToNat (l : List Char) : Option Nat :=
  match l with
  | [] => Option.none
  | _ =>
    l.foldl
      (fun acc c =>
        match acc, digitVal c with
        | Option.some a, Option.some d => Option.some (a * 10 + d)
        | _, _ => Option.none)
      (Option.some 0)

/-- Python `int(s)` on a string: optional sign then decimal digits, else a
`ValueError`. -/
def parseIntStr (s : String) : Except String Int :=
  match s.data with
  | '-' :: rest =>
    match digitsToNat rest with
    | Option.some n => Except.ok (-(n : Int))
    | Option.none => Except.error ("invalid literal for int: " ++ s)
  | l =>
    match digitsToNat l with
    | Option.some n => Except.ok (n : Int)
    | Option.none => Except.error ("invalid literal for int: " ++ s)

/-- Python `int(x)` on a modelled scalar (`int(None)` raises). -/
def pyInt : PyVal → Except String Int
  | PyVal.none => Except.error "int() argument must not be None"
  | PyVal.str s => parseIntStr s
  | PyVal.int n => Except.ok n
  | PyVal.bool b => Except.ok (if b then 1 else 0)

/-- The source idiom `int(str(v) or 0)`: empty string falls back to `0`. -/
def intOfStrOrZero (v : PyVal) : Except String Int :=
  let s := pyStr v
  if s = "" then Except.ok 0 else parseIntStr s

/-- Python `s.lower()` on a genuine string. -/
def strLower (s : String) : String := String.mk (s.data.map Char.toLower)

/-- Python `s.lower()` on the modelled scalars (raises off strings). -/
def pyLowerE : PyVal → Except String String
  | PyVal.str s => Except.ok (strLower s)
  | _ => Except.error "object has no attribute lower"

/-- Python `s.startswith(p)`. -/
def strStartsWith (s p : String) : Bool := p.data.isPrefixOf s.data

/-- Python `s.endswith(p)`. -/
def strEndsWith (s p : String) : Bool := p.data.isSuffixOf s.data

/-- Python `s[:-n]` for `n ≤ len s`. -/
def strDropRight (s : String) (n : Nat) : String :=
  String.mk (s.data.take (s.data.length - n))

/-- `payment['payload']['authorization']` as read by the facilitators.
An absent `authorization` dict behaves like one with every key absent. -/
structure Authorization where
  fromAddr : Option PyVal := Option.none
  toAddr : Option PyVal := Option.none
  value : Option PyVal := Option.none
  validAfter : Option PyVal := Option.none
  validBefore : Option PyVal := Option.none
  nonce : Option PyVal := Option.none
deriving DecidableEq, Repr

/-- The EIP-712 domain carried in `requirements['extra']`; the facilitator
only tests presence of the four keys and forwards the dict to
`encode_typed_data`. -/
structure EIP712Domain where
  name : Option PyVal := Option.none
  version : Option PyVal := Option.none
  chainId : Option PyVal := Option.none
  verifyingContract : Option PyVal := Option.none
deriving DecidableEq, Repr

/-- `all(k in domain for k in ('name','version','chainId','verifyingContract'))`. -/
def hasFullDomain (d : EIP712Domain) : Bool :=
  d.name.isSome && d.version.isSome && d.chainId.isSome && d.verifyingContract.isSome

/-- The payment payload dict (`X-PAYMENT` header after base64+JSON decode),
restricted to the keys the core reads. -/
structure Payment where
  x402Version : Option PyVal := Option.none
  scheme : Option PyVal := Option.none
  network : Option PyVal := Option.none
  signature : Option PyVal := Option.none
  auth : Authorization := {}
deriving DecidableEq, Repr

/-- A payment-requirements dict, restricted to the keys the facilitators
read (presentation-only fields such as `description` are not consulted by
any modelled operation and are omitted). -/
structure Requirements where
  scheme : Option PyVal := Option.none
  network : Option PyVal := Option.none
  payTo : Option PyVal := Option.none
  maxAmountRequired : Option PyVal := Option.none
  asset : Option PyVal := Option.none
  extra : Option EIP712Domain := Option.none
deriving DecidableEq, Repr

/-- The dict returned by `verify` (`isValid`, optional `invalidReason` and
`payer`). -/
structure VerificationResult where
  isValid : Bool
  invalidReason : Option String := Option.none
  payer : Option PyVal := Option.none
deriving DecidableEq, Repr

/-- The message dict built for `encode_typed_data` in
`LocalFacilitator.verify` (six `TransferWithAuthorization` fields, with the
integer fields already converted). -/
structure TransferMessage where
  fromAddr : Option PyVal
  toAddr : Option PyVal
  value : Int
  validAfter : Int
  validBefore : Int
  nonce : Option PyVal
deriving DecidableEq, Repr

/-- External world of `LocalFacilitator.verify`: availability of
`eth_account`, the `encode_typed_data` call (which can raise outside the
inner `try`), the `Account.recover_message` call (raises inside the inner
`try`), and the boolean outcome of `_check_erc20_balance` (that helper
catches its own exceptions and defaults to sufficient). -/
structure EvmVerifyEnv where
  ethAccountAvailable : Bool
  encodeTypedData : EIP712Domain → TransferMessage → Except String Unit
  recoverMessage : EIP712Domain → TransferMessage → PyVal → Except String String
  balanceSufficient : Option PyVal → Option PyVal → Int → Option PyVal → Bool

/-- `LocalFacilitatorConfig` fields consulted by `verify`. -/
structure LocalVerifyConfig where
  verify_balance : Bool := false
deriving DecidableEq, Repr

/-- Step 5 of `LocalFacilitator.verify` (lines 163-225): EIP-712 recovery.
`Except.ok true` means the step lets verification continue (skipped, or the
recovered signer matches), `Except.ok false` means the
`invalid_exact_evm_payload_signature` result, `Except.error` an exception
reaching the outer `except` (a failing int conversion or
`encode_typed_data` raising — both outside the inner `try`). -/
def evmSignatureStep (env : EvmVerifyEnv) (domain : EIP712Domain)
    (auth : Authorization) (signature : PyVal) : Except String Bool :=
  if hasFullDomain domain && pyTruthy signature then
    if env.ethAccountAvailable then
      match intOfStrOrZero (auth.value.getD (PyVal.str "0")) with
      | Except.error e => Except.error e
      | Except.ok mvalue =>
        match intOfStrOrZero (auth.validAfter.getD (PyVal.str "0")) with
        | Except.error e => Except.error e
        | Except.ok mafter =>
          match intOfStrOrZero (auth.validBefore.getD (PyVal.str "0")) with
          | Except.error e => Except.error e
          | Except.ok mbefore =>
            let message : TransferMessage :=
              { fromAddr := auth.fromAddr, toAddr := auth.toAddr, value := mvalue,
                validAfter := mafter, validBefore := mbefore, nonce := auth.nonce }
            match env.encodeTypedData domain message with
            | Except.error e => Except.error e
            | Except.ok _ =>
              match env.recoverMessage domain message signature with
              | Except.error _ => Except.ok false
              | Except.ok recovered =>
                Except.ok (strLower recovered == strLower (pyStr (auth.fromAddr.getD (PyVal.str ""))))
    else Except.ok true
  else Except.ok true

/-- Step 6 of `LocalFacilitator.verify`: the optional balance check.
`Except.ok false` means the `insufficient_balance` result; the
`int(value)` conversion at the call site can raise. -/
def evmBalanceStep (env : EvmVerifyEnv) (cfg : LocalVerifyConfig)
    (auth : Authorization) (req : Requirements) (network : Option PyVal)
    (value : String) : Except String Bool :=
  if cfg.verify_balance then
    match parseIntStr value with
    | Except.error e => Except.error e
    | Except.ok needed =>
      Except.ok (env.balanceSufficient auth.fromAddr req.asset needed network)
  else Except.ok true

/-- The `nonce_str = str(nonce) if nonce else \'\'` idiom shared by both
facilitators. -/
def nonceStr (p : Payment) : String :=
  if pyTruthy (getPy p.auth.nonce) then pyStr (getPy p.auth.nonce) else ""

/-- An invalid `verify` outcome leaving the nonce set unchanged. -/
def invalidRes (reason : String) (used : List String) :
    VerificationResult × List String :=
  ({ isValid := false, invalidReason := Option.some reason }, used)

/-- Body of `LocalFacilitator.verify` (everything inside the outer `try`),
with the `_used_nonces` set threaded explicitly.  `Except.error` models an
exception reaching the outer `except`. -/
def evmVerifyCore (env : EvmVerifyEnv) (cfg : LocalVerifyConfig) (now : Int)
    (used : List String) (payment : Payment) (req : Requirements) :
    Except String (VerificationResult × List String) :=
  -- Step 1: Check x402 version
  match pyInt (payment.x402Version.getD (PyVal.int 0)) with
  | Except.error e => Except.error e
  | Except.ok ver =>
  if ver ≠ 1 then Except.ok (invalidRes "invalid_x402_version" used)
  -- Step 2: Check scheme and network
  else if ¬ (pyEq (getPy payment.scheme) (PyVal.str "exact")
             && pyEq (getPy req.scheme) (PyVal.str "exact")) then
    Except.ok (invalidRes "invalid_scheme" used)
  else if ¬ pyEq (getPy payment.network) (getPy req.network) then
    Except.ok (invalidRes "invalid_network" used)
  else
    -- Extract payload; Step 3: authorization fields
    let auth := payment.auth
    let signature := payment.signature.getD (PyVal.str "")
    let to_addr := strLower (pyStr (auth.toAddr.getD (PyVal.str "")))
    let value := pyStr (auth.value.getD (PyVal.str ""))
    match intOfStrOrZero (auth.validAfter.getD (PyVal.str "0")) with
    | Except.error e => Except.error e
    | Except.ok valid_after =>
    match intOfStrOrZero (auth.validBefore.getD (PyVal.str "0")) with
    | Except.error e => Except.error e
    | Except.ok valid_before =>
    -- Check recipient matches
    if to_addr ≠ strLower (pyStr (req.payTo.getD (PyVal.str ""))) then
      Except.ok (invalidRes "invalid_exact_evm_payload_recipient_mismatch" used)
    -- Check amount matches
    else if value ≠ pyStr (req.maxAmountRequired.getD (PyVal.str "")) then
      Except.ok (invalidRes "invalid_exact_evm_payload_authorization_value" used)
    -- Check timing
    else if now < valid_after then
      Except.ok (invalidRes "invalid_exact_evm_payload_authorization_valid_after" used)
    else if valid_before ≠ 0 ∧ now > valid_before then
      Except.ok (invalidRes "invalid_exact_evm_payload_authorization_valid_before" used)
    else
      -- Step 4: Check nonce not used (replay protection)
      if used.contains (nonceStr payment) then Except.ok (invalidRes "nonce_already_used" used)
      else
        -- Step 5: Verify EIP-712 signature (if full domain provided)
        match evmSignatureStep env (req.extra.getD {}) auth signature with
        | Except.error e => Except.error e
        | Except.ok sigOk =>
          if sigOk = false then Except.ok (invalidRes "invalid_exact_evm_payload_signature" used)
          else
            -- Step 6: Verify balance (optional)
            match evmBalanceStep env cfg auth req payment.network value with
            | Except.error e => Except.error e
            | Except.ok balOk =>
              if balOk = false then Except.ok (invalidRes "insufficient_balance" used)
              else
                -- All checks passed - mark nonce as used
                Except.ok ({ isValid := true, payer := auth.fromAddr },
                           if nonceStr payment ≠ "" then nonceStr payment :: used else used)

/-- The outer `try/except` shared by both facilitators\' `verify`: any
exception becomes an `unexpected_verify_error` result and the nonce set is
left unchanged. -/
def catchVerify (used : List String)
    (x : Except String (VerificationResult × List String)) :
    VerificationResult × List String :=
  match x with
  | Except.ok res => res
  | Except.error e =>
    ({ isValid := false, invalidReason := Option.some ("unexpected_verify_error: " ++ e) }, used)

/-- `LocalFacilitator.verify`: the body guarded by the outer `try/except`. -/
def evmVerify (env : EvmVerifyEnv) (cfg : LocalVerifyConfig) (now : Int)
    (used : List String) (payment : Payment) (req : Requirements) :
    VerificationResult × List String :=
  catchVerify used (evmVerifyCore env cfg now used payment req)

/-- External world of `SolanaFacilitator.verify`: availability of the
`solders` libraries, the signature/pubkey parsing block (everything inside
the inner `try` after the imports: `b64decode`/`fromhex`,
`Signature.from_bytes`, `Pubkey.from_string` — the source parses these and
then falls through WITHOUT comparing the signature against the message; see
the `simplified for demonstration` comment at facilitators_solana.py:145),
and the boolean outcome of `_check_spl_token_balance` (which catches its own
exceptions). -/
structure SolanaVerifyEnv where
  soldersAvailable : Bool
  parseSignature : PyVal → String → Except String Unit
  balanceSufficient : String → Option PyVal → Int → Bool

/-- Step 7 of `SolanaFacilitator.verify`: `Except.ok Option.none` lets
verification continue — in particular after a SUCCESSFUL parse the source
performs no Ed25519 comparison at all and falls through (the
`simplified for demonstration` stub) — `Except.ok (Option.some r)` is the
`invalid_signature: ...` rejection, `Except.error` an exception to the
outer `except` (unreachable: every raise inside the step is caught by the
inner `except ImportError` / `except Exception` handlers). -/
def solanaSignatureStep (env : SolanaVerifyEnv) (signature : PyVal)
    (from_addr : String) : Except String (Option String) :=
  if pyTruthy signature && from_addr ≠ "" then
    if env.soldersAvailable then
      match env.parseSignature signature from_addr with
      | Except.error e => Except.ok (Option.some ("invalid_signature: " ++ e))
      | Except.ok _ => Except.ok Option.none
    else Except.ok Option.none
  else Except.ok Option.none

/-- Step 8 of `SolanaFacilitator.verify`: the optional SPL balance check. -/
def solanaBalanceStep (env : SolanaVerifyEnv) (cfg : LocalVerifyConfig)
    (from_addr : String) (req : Requirements) (value : String) :
    Except String Bool :=
  if cfg.verify_balance then
    match parseIntStr value with
    | Except.error e => Except.error e
    | Except.ok needed => Except.ok (env.balanceSufficient from_addr req.asset needed)
  else Except.ok true

/-- Body of `SolanaFacilitator.verify` (everything inside the outer `try`). -/
def solanaVerifyCore (env : SolanaVerifyEnv) (cfg : LocalVerifyConfig) (now : Int)
    (used : List String) (payment : Payment) (req : Requirements) :
    Except String (VerificationResult × List String) :=
  -- Step 1: Check x402 version
  match pyInt (payment.x402Version.getD (PyVal.int 0)) with
  | Except.error e => Except.error e
  | Except.ok ver =>
  if ver ≠ 1 then Except.ok (invalidRes "invalid_x402_version" used)
  -- Step 2: Check scheme and network
  else if ¬ (pyEq (getPy payment.scheme) (PyVal.str "exact")
             && pyEq (getPy req.scheme) (PyVal.str "exact")) then
    Except.ok (invalidRes "invalid_scheme" used)
  else
    match pyLowerE (payment.network.getD (PyVal.str "")) with
    | Except.error e => Except.error e
    | Except.ok payment_network =>
    match pyLowerE (req.network.getD (PyVal.str "")) with
    | Except.error e => Except.error e
    | Except.ok requirements_network =>
    if payment_network ≠ requirements_network then
      Except.ok (invalidRes "invalid_network" used)
    else
      -- Extract payload and authorization fields
      let auth := payment.auth
      let signature := payment.signature.getD (PyVal.str "")
      let from_addr := pyStr (auth.fromAddr.getD (PyVal.str ""))
      let to_addr := pyStr (auth.toAddr.getD (PyVal.str ""))
      let value := pyStr (auth.value.getD (PyVal.str ""))
      match intOfStrOrZero (auth.validAfter.getD (PyVal.str "0")) with
      | Except.error e => Except.error e
      | Except.ok valid_after =>
      match intOfStrOrZero (auth.validBefore.getD (PyVal.str "0")) with
      | Except.error e => Except.error e
      | Except.ok valid_before =>
      -- Step 3: Verify recipient matches
      if ¬ pyEq (PyVal.str to_addr) (req.payTo.getD (PyVal.str "")) then
        Except.ok (invalidRes "recipient_mismatch" used)
      -- Step 4: Verify amount matches
      else if value ≠ pyStr (req.maxAmountRequired.getD (PyVal.str "")) then
        Except.ok (invalidRes "amount_mismatch" used)
      -- Step 5: Verify timing
      else if now < valid_after then
        Except.ok (invalidRes "payment_not_yet_valid" used)
      else if valid_before ≠ 0 ∧ now > valid_before then
        Except.ok (invalidRes "payment_expired" used)
      else
        -- Step 6: Check nonce not used (replay protection)
        if used.contains (nonceStr payment) then Except.ok (invalidRes "nonce_already_used" used)
        else
          -- Step 7: the signature "verification" stub
          match solanaSignatureStep env signature from_addr with
          | Except.error e => Except.error e
          | Except.ok sigReason =>
            if sigReason.isSome then
              Except.ok ({ isValid := false, invalidReason := sigReason }, used)
            else
              -- Step 8: Check SPL token balance (optional)
              match solanaBalanceStep env cfg from_addr req value with
              | Except.error e => Except.error e
              | Except.ok balOk =>
                if balOk = false then Except.ok (invalidRes "insufficient_balance" used)
                else
                  -- All checks passed - mark nonce as used
                  Except.ok ({ isValid := true, payer := Option.some (PyVal.str from_addr) },
                             if nonceStr payment ≠ "" then nonceStr payment :: used else used)

/-- `SolanaFacilitator.verify` with its outer `try/except`. -/
def solanaVerify (env : SolanaVerifyEnv) (cfg : LocalVerifyConfig) (now : Int)
    (used : List String) (payment : Payment) (req : Requirements) :
    VerificationResult × List String :=
  catchVerify used (solanaVerifyCore env cfg now used payment req)

/-- `HybridFacilitator.verify`.  `localVerify` models the `self.local.verify`
call (which may raise — the surrounding `try` exists for exactly that);
`remoteVerify` models `self.remote.verify`, which in this repository never
raises (its whole body is wrapped in `try/except`). -/
def hybridVerify (localVerify : Payment → Requirements → Except String VerificationResult)
    (fallback_to_remote : Bool)
    (remoteVerify : Payment → Requirements → VerificationResult)
    (payment : Payment) (req : Requirements) : VerificationResult :=
  match localVerify payment req with
  | Except.ok local_res =>
    if local_res.isValid then local_res
    else if ¬ fallback_to_remote then local_res
    else remoteVerify payment req
  | Except.error _ => remoteVerify payment req

/-- The dict returned by a facilitator `settle` (`success`, optional
`transaction`, `error`, `receipt`). -/
structure SettleDict where
  success : Bool
  transaction : Option PyVal := Option.none
  error : Option String := Option.none
  receipt : Option PyVal := Option.none
deriving DecidableEq, Repr

/-- External world of `LocalFacilitator.settle`: environment variables,
availability of `web3`/`eth_abi`, the RPC connection, and the chain
operations (each of which can raise). -/
structure EvmSettleEnv where
  envVar : String → String
  web3Available : Bool
  connected : Bool
  loadAccountAddr : String → Except String String
  txCount : String → Except String Int
  gasPrice : Except String Int
  callSim : Option PyVal → Option PyVal → Except String Unit
  sendRaw : Except String String
  waitReceipt : String → Except String (Option Int × PyVal)

/-- `LocalFacilitatorConfig` fields consulted by `settle`. -/
structure LocalSettleConfig where
  private_key_env : String := "X402_SIGNER_KEY"
  rpc_url_env : String := "X402_RPC_URL"
  simulate_before_send : Bool := true
  wait_for_receipt : Bool := false
deriving DecidableEq, Repr

/-- Python `bytes.fromhex` succeeds only on hex digits. -/
def hexOk (l : List Char) : Bool := l.all (fun c => c.isDigit || ('a' ≤ c && c ≤ 'f') || ('A' ≤ c && c ≤ 'F'))

/-- The r/s/v signature slicing in `LocalFacilitator.settle` (lines
317-323): hex decoding of the 64/64/2-character slices, each raising
`ValueError` on non-hex input, with zero/27 fallbacks for short
signatures.  The decoded byte values themselves only flow into the
transaction-data oracle, so only success/failure is tracked. -/
def parseSigComponents (signature : String) : Except String Unit := do
  let sig_hex := if strStartsWith signature "0x" then signature.data.drop 2 else signature.data
  if sig_hex.length ≥ 64 then
    if ¬ hexOk (sig_hex.take 64) then Except.error "non-hexadecimal number found" else pure ()
  if sig_hex.length ≥ 128 then
    if ¬ hexOk ((sig_hex.drop 64).take 64) then Except.error "non-hexadecimal number found" else pure ()
  if sig_hex.length ≥ 130 then
    if ¬ hexOk ((sig_hex.drop 128).take 2) then Except.error "invalid literal for int with base 16" else pure ()
  return ()

/-- The nonce normalisation in `LocalFacilitator.settle` (lines 326-333):
a `0x` string is hex-decoded (raising on non-hex), otherwise `int(nonce or 0)`
is taken (raising on non-numeric strings). -/
def normalizeNonce (nonce : PyVal) : Except String Unit :=
  match nonce with
  | PyVal.str s =>
    if strStartsWith s "0x" then
      if hexOk (s.data.drop 2) ∧ (s.data.length - 2) % 2 = 0 then Except.ok () else Except.error "non-hexadecimal number found"
    else if s = "" then Except.ok ()
    else (parseIntStr s).map (fun _ => ())
  | v => if pyTruthy v then (pyInt v).map (fun _ => ()) else Except.ok ()

/-- Body of `LocalFacilitator.settle` (everything inside the outer `try`). -/
def evmSettleCore (env : EvmSettleEnv) (cfg : LocalSettleConfig)
    (payment : Payment) (req : Requirements) : Except String SettleDict := do
  let private_key := env.envVar cfg.private_key_env
  if private_key = "" then
    return { success := false, error := Option.some (cfg.private_key_env ++ " not set") }
  let rpc_url := env.envVar cfg.rpc_url_env
  if rpc_url = "" then
    return { success := false, error := Option.some (cfg.rpc_url_env ++ " not set") }
  if ¬ env.web3Available then
    return { success := false, error := Option.some "web3 package not installed" }
  if ¬ env.connected then
    return { success := false, error := Option.some "Failed to connect to RPC" }
  let acctAddr ← env.loadAccountAddr private_key
  let auth := payment.auth
  let _value ← intOfStrOrZero (auth.value.getD (PyVal.str "0"))
  let _valid_after ← intOfStrOrZero (auth.validAfter.getD (PyVal.str "0"))
  let _valid_before ← intOfStrOrZero (auth.validBefore.getD (PyVal.str "0"))
  let signature := pyStr (payment.signature.getD (PyVal.str ""))
  let _ ← parseSigComponents signature
  let _ ← normalizeNonce (getPy auth.nonce)
  let _nonceCount ← env.txCount acctAddr
  let _gas ← env.gasPrice
  if cfg.simulate_before_send then
    match env.callSim req.asset auth.fromAddr with
    | Except.error sim_error =>
      return { success := false,
               error := Option.some ("Transaction simulation failed: " ++ sim_error) }
    | Except.ok _ => pure ()
  let tx_hash ← env.sendRaw
  if cfg.wait_for_receipt then
    match env.waitReceipt tx_hash with
    | Except.error _ =>
      return { success := true, transaction := Option.some (PyVal.str tx_hash) }
    | Except.ok (status, receipt) =>
      if status = Option.some 0 then
        return { success := false, error := Option.some "Transaction reverted",
                 transaction := Option.some (PyVal.str tx_hash),
                 receipt := Option.some receipt }
      return { success := true, transaction := Option.some (PyVal.str tx_hash),
               receipt := Option.some receipt }
  return { success := true, transaction := Option.some (PyVal.str tx_hash) }

/-- `LocalFacilitator.settle` with its outer `try/except`. -/
def evmSettle (env : EvmSettleEnv) (cfg : LocalSettleConfig)
    (payment : Payment) (req : Requirements) : SettleDict :=
  match evmSettleCore env cfg payment req with
  | Except.ok res => res
  | Except.error e => { success := false, error := Option.some e }

/-- External world of `SolanaFacilitator.settle`. -/
structure SolanaSettleEnv where
  envVar : String → String
  solanaAvailable : Bool
  loadKeypair : String → Except String Unit
  parsePubkeys : Option PyVal → Option PyVal → Option PyVal → Except String Unit

/-- `SolanaFacilitator` settle-side config fields. -/
structure SolanaSettleConfig where
  private_key_env : String := "X402_SOLANA_SIGNER_KEY"
  rpc_url_env : String := "X402_SOLANA_RPC_URL"
deriving DecidableEq, Repr

/-- Body of `SolanaFacilitator.settle` (inside the outer `try`); the
broadcast is a stub that fabricates `solana_tx_<now>`. -/
def solanaSettleCore (env : SolanaSettleEnv) (cfg : SolanaSettleConfig) (now : Int)
    (payment : Payment) (req : Requirements) : Except String SettleDict := do
  let private_key_b58 := env.envVar cfg.private_key_env
  if private_key_b58 = "" then
    return { success := false, error := Option.some (cfg.private_key_env ++ " not set") }
  if ¬ env.solanaAvailable then
    return { success := false,
             error := Option.some "Solana libraries not installed. Install with: pip install -e .[solana]" }
  match env.loadKeypair private_key_b58 with
  | Except.error e =>
    return { success := false, error := Option.some ("Invalid private key: " ++ e) }
  | Except.ok _ => pure ()
  let auth := payment.auth
  let _value ← intOfStrOrZero (auth.value.getD (PyVal.str "0"))
  match env.parsePubkeys auth.fromAddr auth.toAddr req.asset with
  | Except.error e =>
    return { success := false, error := Option.some ("Invalid address: " ++ e) }
  | Except.ok _ => pure ()
  return { success := true,
           transaction := Option.some (PyVal.str ("solana_tx_" ++ toString now)) }

/-- `SolanaFacilitator.settle` with its outer `try/except`. -/
def solanaSettle (env : SolanaSettleEnv) (cfg : SolanaSettleConfig) (now : Int)
    (payment : Payment) (req : Requirements) : SettleDict :=
  match solanaSettleCore env cfg now payment req with
  | Except.ok res => res
  | Except.error e => { success := false, error := Option.some e }

/-- `RemoteFacilitator.verify`: the HTTP POST (`httpx.post` +
`raise_for_status` + `.json()`) is one oracle; any failure is converted to
a `remote_error` result. -/
def remoteVerify (httpVerify : Payment → Requirements → Except String VerificationResult)
    (payment : Payment) (req : Requirements) : VerificationResult :=
  match httpVerify payment req with
  | Except.ok res => res
  | Except.error e =>
    { isValid := false, invalidReason := Option.some ("remote_error: " ++ e) }

/-- `RemoteFacilitator.settle`, symmetric to `remoteVerify`. -/
def remoteSettle (httpSettle : Payment → Requirements → Except String SettleDict)
    (payment : Payment) (req : Requirements) : SettleDict :=
  match httpSettle payment req with
  | Except.ok res => res
  | Except.error e => { success := false, error := Option.some ("remote_error: " ++ e) }

/-- Modelled from the spec: `RequestContext` from `core/context.py`, which is
absent from the sources (only its importers are present).  Spec section 6:
`{path, method, headers, payment_header: optional string, absolute_url}`;
`headers` is not consulted by any modelled operation and is omitted. -/
structure RequestContext where
  path : String
  method : String := "GET"
  payment_header : Option String := Option.none
  absolute_url : String := ""
deriving DecidableEq, Repr

/-- Modelled from the spec: `ProcessingResult` from the missing
`core/context.py`.  Spec section 6: `{action: allow|deny, requirements?,
error?, payment_verified?, payer_address?}`. -/
structure ProcessingResult where
  action : String
  requirements : Option (List Requirements) := Option.none
  error : Option String := Option.none
  payment_verified : Bool := false
  payer_address : Option PyVal := Option.none
deriving DecidableEq, Repr

/-- Modelled from the spec: `SettlementResult` from the missing
`core/context.py`.  Spec section 3: `{success, transaction_hash?, error?,
receipt?, encoded_response?}`; a cached result object is returned unmodified
when found. -/
structure SettlementResult where
  success : Bool
  transaction_hash : Option PyVal := Option.none
  error : Option String := Option.none
  receipt : Option PyVal := Option.none
  encoded_response : Option String := Option.none
deriving DecidableEq, Repr

/-- `X402Config` fields consulted by the processor. -/
structure Config where
  network : String
  price : String
  pay_to_address : String
  protected_paths : List String := ["*"]
  replay_cache_enabled : Bool := false
deriving DecidableEq, Repr

/-- External world of `X402PaymentProcessor`: availability of the `x402`
helper package, `process_price_to_atomic_amount` (can raise),
`safe_base64_decode` + `json.loads` of the payment header (can raise),
`find_matching_payment_requirements` together with the pydantic
conversions around it (can raise), the facilitator owned by the processor
(whose `verify`/`settle` never raise in this repository), and
`base64.b64encode(json.dumps(...))` of a settlement dict (total). -/
structure ProcEnv where
  x402Available : Bool
  processPrice : String → String → Except String (String × String × EIP712Domain)
  decodePayment : String → Except String Payment
  findMatching : List Requirements → Payment → Except String (Option Requirements)
  facVerify : Payment → Requirements → VerificationResult
  facSettle : Payment → Requirements → SettleDict
  encodeSettle : SettleDict → String

/-- `X402PaymentProcessor._is_protected_path`. -/
def isProtectedPath (patterns : List String) (path : String) : Bool :=
  if patterns.contains "*" then true
  else patterns.any (fun pat =>
    if strEndsWith pat "/*" then strStartsWith path (strDropRight pat 2)
    else pat == path)

/-- `X402PaymentProcessor._build_payment_requirements`: the `x402` branch
(which can propagate a `process_price_to_atomic_amount` exception) and the
ImportError fallback with its hardcoded asset and amount. -/
def buildPaymentRequirements (cfg : Config) (env : ProcEnv) :
    Except String (List Requirements) :=
  if env.x402Available then
    match env.processPrice cfg.price cfg.network with
    | Except.error e => Except.error e
    | Except.ok (max_amount, asset, eip712_domain) =>
    Except.ok [{ scheme := Option.some (PyVal.str "exact"),
                 network := Option.some (PyVal.str cfg.network),
                 payTo := Option.some (PyVal.str cfg.pay_to_address),
                 maxAmountRequired := Option.some (PyVal.str max_amount),
                 asset := Option.some (PyVal.str asset),
                 extra := Option.some eip712_domain }]
  else
    Except.ok [{ scheme := Option.some (PyVal.str "exact"),
                 network := Option.some (PyVal.str cfg.network),
                 payTo := Option.some (PyVal.str cfg.pay_to_address),
                 maxAmountRequired := Option.some (PyVal.str "10000"),
                 asset := Option.some (PyVal.str "0x0000000000000000000000000000000000000000"),
                 extra := Option.none }]

/-- `verification.get('invalidReason') or verification.get('invalid_reason')
or 'Unknown error'` (the repository facilitators only set `invalidReason`). -/
def reasonOrUnknown (r : Option String) : String :=
  match r with
  | Option.some s => if s = "" then "Unknown error" else s
  | Option.none => "Unknown error"

/-- The `selected_requirements` computation of `process_request`: the
`x402`-backed matcher with its `except Exception: selected = None` guard,
and the ImportError fallback (`requirements[0]` filtered by network
equality). -/
def selectRequirements (env : ProcEnv) (requirements : List Requirements)
    (payment : Payment) : Option Requirements :=
  if env.x402Available then
    match env.findMatching requirements payment with
    | Except.ok sel => sel
    | Except.error _ => Option.none
  else
    match requirements.head? with
    | Option.none => Option.none
    | Option.some r0 =>
      if pyEq (getPy payment.network) (getPy r0.network) then Option.some r0
      else Option.none

/-- `X402PaymentProcessor.process_request`.  The second component counts
facilitator `verify` invocations.  `Except.error` models an exception
escaping to the caller (possible only out of the unguarded
`_build_payment_requirements` call). -/
def processRequest (cfg : Config) (env : ProcEnv) (ctx : RequestContext) :
    Except String (ProcessingResult × Nat) :=
  -- Check if path is protected
  if ¬ isProtectedPath cfg.protected_paths ctx.path then
    Except.ok ({ action := "allow" }, 0)
  else
  -- Build payment requirements for this resource
  match buildPaymentRequirements cfg env with
  | Except.error e => Except.error e
  | Except.ok requirements =>
  -- Check for payment header
  if ¬ pyTruthy (PyVal.str (ctx.payment_header.getD "")) then
    Except.ok ({ action := "deny", requirements := Option.some requirements,
                 error := Option.some "No X-PAYMENT header provided" }, 0)
  else
  -- Parse payment payload
  match env.decodePayment (ctx.payment_header.getD "") with
  | Except.error _ =>
    Except.ok ({ action := "deny", requirements := Option.some requirements,
                 error := Option.some "Invalid payment header format" }, 0)
  | Except.ok payment =>
    -- Find matching requirements
    match selectRequirements env requirements payment with
    | Option.none =>
      Except.ok ({ action := "deny", requirements := Option.some requirements,
                   error := Option.some "No matching payment requirements found" }, 0)
    | Option.some req =>
      -- Verify payment with facilitator
      let verification := env.facVerify payment req
      if ¬ verification.isValid then
        Except.ok ({ action := "deny", requirements := Option.some requirements,
                     error := Option.some ("Invalid payment: "
                       ++ reasonOrUnknown verification.invalidReason) }, 1)
      else
        Except.ok ({ action := "allow", payment_verified := true,
                     payer_address := verification.payer }, 1)

/-- The settlement cache `_payment_cache` as an association list with
most-recent-write first (`_cache_settlement` overwrites per key). -/
def cacheLookup (cache : List (String × SettlementResult)) (k : String) :
    Option SettlementResult :=
  match cache.find? (fun e => e.1 == k) with
  | Option.some e => Option.some e.2
  | Option.none => Option.none

/-- `X402PaymentProcessor._get_cached_settlement`. -/
def getCachedSettlement (cache : List (String × SettlementResult))
    (payment_header : Option String) : Option SettlementResult :=
  match payment_header with
  | Option.none => Option.none
  | Option.some h => if h = "" then Option.none else cacheLookup cache h

/-- The `SettlementResult` built by `settle_payment` from the facilitator
settle dict: the failure branch keeps the dict error (default `Settlement
failed`), the success branch records the transaction, the base64-encoded
dict, and the receipt. -/
def settleResultOf (env : ProcEnv) (payment : Payment) (req : Requirements) :
    SettlementResult :=
  let settlement := env.facSettle payment req
  if ¬ settlement.success then
    { success := false, error := Option.some (settlement.error.getD "Settlement failed") }
  else
    { success := true, transaction_hash := settlement.transaction,
      encoded_response := Option.some (env.encodeSettle settlement),
      receipt := settlement.receipt }

/-- The `try` block of `X402PaymentProcessor.settle_payment`; returns the
result, the updated cache, and the number of facilitator `settle`
invocations. -/
def settlePaymentTry (cfg : Config) (env : ProcEnv) (ctx : RequestContext)
    (cache : List (String × SettlementResult)) :
    Except String (SettlementResult × List (String × SettlementResult) × Nat) :=
  -- Parse payment (`safe_base64_decode(None)` raises a TypeError)
  match ctx.payment_header with
  | Option.none => Except.error "argument should be str or bytes-like, not NoneType"
  | Option.some header =>
  match env.decodePayment header with
  | Except.error e => Except.error e
  | Except.ok payment =>
  -- Build requirements (inside the try here, unlike in process_request)
  match buildPaymentRequirements cfg env with
  | Except.error e => Except.error e
  | Except.ok requirements =>
  -- Find matching requirements (only ImportError is caught here, so a
  -- matching failure propagates to the outer except)
  match (if env.x402Available then env.findMatching requirements payment
         else Except.ok requirements.head?) with
  | Except.error e => Except.error e
  | Except.ok Option.none =>
    Except.ok ({ success := false, error := Option.some "No matching requirements for settlement" },
               cache, 0)
  | Except.ok (Option.some req) =>
    -- Settle via facilitator
    let result : SettlementResult := settleResultOf env payment req
    -- Cache result
    let cache2 := if cfg.replay_cache_enabled ∧ header ≠ "" then (header, result) :: cache
                  else cache
    Except.ok (result, cache2, 1)

/-- `X402PaymentProcessor.settle_payment`: replay-cache lookup, then the
`try` block, whose exceptions degrade to a `success := false` result. -/
def settlePayment (cfg : Config) (env : ProcEnv) (ctx : RequestContext)
    (cache : List (String × SettlementResult)) :
    SettlementResult × List (String × SettlementResult) × Nat :=
  match (if cfg.replay_cache_enabled then getCachedSettlement cache ctx.payment_header
         else Option.none) with
  | Option.some cached => (cached, cache, 0)
  | Option.none =>
    match settlePaymentTry cfg env ctx cache with
    | Except.ok r => r
    | Except.error e => ({ success := false, error := Option.some e }, cache, 0)

/-! Concrete fixtures used by witnesses and counterexamples. -/

/-- An EVM environment with `eth_account` unavailable. -/
def evmEnvNoLib : EvmVerifyEnv :=
  { ethAccountAvailable := false
    encodeTypedData := fun _ _ => Except.ok ()
    recoverMessage := fun _ _ _ => Except.error "not available"
    balanceSufficient := fun _ _ _ _ => true }

/-- An EVM environment whose recovery oracle always recovers `0xsender`
(so signatures "by" that address validate and all others do not). -/
def evmEnvRecoverSender : EvmVerifyEnv :=
  { ethAccountAvailable := true
    encodeTypedData := fun _ _ => Except.ok ()
    recoverMessage := fun _ _ _ => Except.ok "0xsender"
    balanceSufficient := fun _ _ _ _ => true }

/-- A well-formed EVM payment matching `reqBase`. -/
def payBase : Payment :=
  { x402Version := Option.some (PyVal.int 1)
    scheme := Option.some (PyVal.str "exact")
    network := Option.some (PyVal.str "base")
    signature := Option.some (PyVal.str "")
    auth := { fromAddr := Option.some (PyVal.str "0xSender")
              toAddr := Option.some (PyVal.str "0xReceiver")
              value := Option.some (PyVal.str "10000")
              validAfter := Option.some (PyVal.str "0")
              validBefore := Option.some (PyVal.str "0")
              nonce := Option.some (PyVal.str "0x123") } }

/-- Requirements matching `payBase`. -/
def reqBase : Requirements :=
  { scheme := Option.some (PyVal.str "exact")
    network := Option.some (PyVal.str "base")
    payTo := Option.some (PyVal.str "0xReceiver")
    maxAmountRequired := Option.some (PyVal.str "10000")
    asset := Option.some (PyVal.str "0xAsset")
    extra := Option.none }

/-! Reference form of the verification algorithm, written as the spec words
it: an ordered list of checks, each yielding a distinct reason code, with
the first failure reported.  `nver`, `va`, `vb` are the already-parsed
version/validAfter/validBefore integers and `sigOk`/`balOk` the outcomes of
the signature and balance steps. -/

/-- The EVM check sequence in the spec's claimed order: version, scheme,
network, recipient, amount, timing, nonce, signature, balance. -/
def evmOrderedChecks (now : Int) (used : List String) (p : Payment)
    (r : Requirements) (nver va vb : Int) (sigOk balOk : Bool) :
    List (Option String) :=
  [ if nver ≠ 1 then Option.some "invalid_x402_version" else Option.none,
    if ¬ (pyEq (getPy p.scheme) (PyVal.str "exact")
          && pyEq (getPy r.scheme) (PyVal.str "exact")) then
      Option.some "invalid_scheme" else Option.none,
    if ¬ pyEq (getPy p.network) (getPy r.network) then
      Option.some "invalid_network" else Option.none,
    if strLower (pyStr (p.auth.toAddr.getD (PyVal.str "")))
        ≠ strLower (pyStr (r.payTo.getD (PyVal.str ""))) then
      Option.some "invalid_exact_evm_payload_recipient_mismatch" else Option.none,
    if pyStr (p.auth.value.getD (PyVal.str ""))
        ≠ pyStr (r.maxAmountRequired.getD (PyVal.str "")) then
      Option.some "invalid_exact_evm_payload_authorization_value" else Option.none,
    if now < va then Option.some "invalid_exact_evm_payload_authorization_valid_after"
    else if vb ≠ 0 ∧ now > vb then
      Option.some "invalid_exact_evm_payload_authorization_valid_before" else Option.none,
    if used.contains (nonceStr p) then Option.some "nonce_already_used" else Option.none,
    if sigOk = false then Option.some "invalid_exact_evm_payload_signature" else Option.none,
    if balOk = false then Option.some "insufficient_balance" else Option.none ]

/-- The same check sequence as `evmOrderedChecks`, written as the code's
fail-fast cascade. -/
def evmFirstReason (now : Int) (used : List String) (p : Payment)
    (r : Requirements) (nver va vb : Int) (sigOk balOk : Bool) : Option String :=
  if nver ≠ 1 then Option.some "invalid_x402_version"
  else if ¬ (pyEq (getPy p.scheme) (PyVal.str "exact")
             && pyEq (getPy r.scheme) (PyVal.str "exact")) then
    Option.some "invalid_scheme"
  else if ¬ pyEq (getPy p.network) (getPy r.network) then
    Option.some "invalid_network"
  else if strLower (pyStr (p.auth.toAddr.getD (PyVal.str "")))
      ≠ strLower (pyStr (r.payTo.getD (PyVal.str ""))) then
    Option.some "invalid_exact_evm_payload_recipient_mismatch"
  else if pyStr (p.auth.value.getD (PyVal.str ""))
      ≠ pyStr (r.maxAmountRequired.getD (PyVal.str "")) then
    Option.some "invalid_exact_evm_payload_authorization_value"
  else if now < va then Option.some "invalid_exact_evm_payload_authorization_valid_after"
  else if vb ≠ 0 ∧ now > vb then
    Option.some "invalid_exact_evm_payload_authorization_valid_before"
  else if used.contains (nonceStr p) then Option.some "nonce_already_used"
  else if sigOk = false then Option.some "invalid_exact_evm_payload_signature"
  else if balOk = false then Option.some "insufficient_balance"
  else Option.none

/-- `List.findSome?` over a list headed by an `if`. -/
theorem findSome_ite_cons (c : Prop) [Decidable c] (a b : Option String)
    (rest : List (Option String)) :
    List.findSome? id ((if c then a else b) :: rest)
      = if c then List.findSome? id (a :: rest) else List.findSome? id (b :: rest) := by
  by_cases h : c <;> simp [h]

/-- `List.findSome?` finds a `some` head. -/
theorem findSome_some_cons (r : String) (rest : List (Option String)) :
    List.findSome? id (Option.some r :: rest) = Option.some r := rfl

/-- `List.findSome?` skips a `none` head. -/
theorem findSome_none_cons (rest : List (Option String)) :
    List.findSome? id (Option.none :: rest) = List.findSome? id rest := rfl

/-- `List.findSome?` of the empty list. -/
theorem findSome_nil : List.findSome? id ([] : List (Option String)) = Option.none := rfl

/-- `catchVerify` on a normal result. -/
theorem catchVerify_ok (used : List String) (res : VerificationResult × List String) :
    catchVerify used (Except.ok res) = res := rfl

/-- The cascade and the ordered check list agree. -/
theorem evmFirstReason_eq_findSome (now : Int) (used : List String) (p : Payment)
    (r : Requirements) (nver va vb : Int) (sigOk balOk : Bool) :
    evmFirstReason now used p r nver va vb sigOk balOk
      = (evmOrderedChecks now used p r nver va vb sigOk balOk).findSome? id := by
  unfold evmFirstReason evmOrderedChecks
  simp only [findSome_ite_cons, findSome_some_cons, findSome_none_cons, findSome_nil]

/-- Translation of a first-failing-reason into the final `verify` outcome. -/
def reasonOutcome (used : List String) (p : Payment) (payer : Option PyVal)
    (o : Option String) : VerificationResult × List String :=
  match o with
  | Option.some reason => ({ isValid := false, invalidReason := Option.some reason }, used)
  | Option.none =>
    ({ isValid := true, payer := payer },
     if nonceStr p ≠ "" then nonceStr p :: used else used)

/-- `reasonOutcome` on a failure reason. -/
theorem reasonOutcome_some (used : List String) (p : Payment) (payer : Option PyVal)
    (reason : String) :
    reasonOutcome used p payer (Option.some reason)
      = ({ isValid := false, invalidReason := Option.some reason }, used) := rfl

/-- `reasonOutcome` when every check passed. -/
theorem reasonOutcome_none (used : List String) (p : Payment) (payer : Option PyVal) :
    reasonOutcome used p payer Option.none
      = ({ isValid := true, payer := payer },
         if nonceStr p ≠ "" then nonceStr p :: used else used) := rfl

/-- `evmVerify` reports exactly the first failing check of the ordered
cascade once the integer conversions and the two oracle-backed steps are
known not to raise. -/
theorem evmVerify_eq_firstReason (env : EvmVerifyEnv) (cfg : LocalVerifyConfig)
    (now : Int) (used : List String) (p : Payment) (r : Requirements)
    (nver va vb : Int) (sigOk balOk : Bool)
    (h1 : pyInt (p.x402Version.getD (PyVal.int 0)) = Except.ok nver)
    (h2 : intOfStrOrZero (p.auth.validAfter.getD (PyVal.str "0")) = Except.ok va)
    (h3 : intOfStrOrZero (p.auth.validBefore.getD (PyVal.str "0")) = Except.ok vb)
    (h4 : evmSignatureStep env (r.extra.getD {}) p.auth (p.signature.getD (PyVal.str ""))
            = Except.ok sigOk)
    (h5 : evmBalanceStep env cfg p.auth r p.network (pyStr (p.auth.value.getD (PyVal.str "")))
            = Except.ok balOk) :
    evmVerify env cfg now used p r
      = reasonOutcome used p p.auth.fromAddr
          (evmFirstReason now used p r nver va vb sigOk balOk) := by
  unfold evmVerify evmVerifyCore evmFirstReason
  simp only [h1, h2, h3, h4, h5]
  simp only [apply_ite (catchVerify used),
    apply_ite (reasonOutcome used p p.auth.fromAddr),
    catchVerify_ok, reasonOutcome_some, reasonOutcome_none, invalidRes]

/-- The Solana check sequence in the spec's claimed order.  `pn`/`rn` are
the lowered network strings and `sigReason` the outcome of the signature
step (`Option.none` when it falls through). -/
def solanaOrderedChecks (now : Int) (used : List String) (p : Payment)
    (r : Requirements) (nver : Int) (pn rn : String) (va vb : Int)
    (sigReason : Option String) (balOk : Bool) : List (Option String) :=
  [ if nver ≠ 1 then Option.some "invalid_x402_version" else Option.none,
    if ¬ (pyEq (getPy p.scheme) (PyVal.str "exact")
          && pyEq (getPy r.scheme) (PyVal.str "exact")) then
      Option.some "invalid_scheme" else Option.none,
    if pn ≠ rn then Option.some "invalid_network" else Option.none,
    if ¬ pyEq (PyVal.str (pyStr (p.auth.toAddr.getD (PyVal.str ""))))
          (r.payTo.getD (PyVal.str "")) then
      Option.some "recipient_mismatch" else Option.none,
    if pyStr (p.auth.value.getD (PyVal.str ""))
        ≠ pyStr (r.maxAmountRequired.getD (PyVal.str "")) then
      Option.some "amount_mismatch" else Option.none,
    if now < va then Option.some "payment_not_yet_valid"
    else if vb ≠ 0 ∧ now > vb then Option.some "payment_expired" else Option.none,
    if used.contains (nonceStr p) then Option.some "nonce_already_used" else Option.none,
    sigReason,
    if balOk = false then Option.some "insufficient_balance" else Option.none ]

/-- The same Solana check sequence as the code's fail-fast cascade. -/
def solanaFirstReason (now : Int) (used : List String) (p : Payment)
    (r : Requirements) (nver : Int) (pn rn : String) (va vb : Int)
    (sigReason : Option String) (balOk : Bool) : Option String :=
  if nver ≠ 1 then Option.some "invalid_x402_version"
  else if ¬ (pyEq (getPy p.scheme) (PyVal.str "exact")
             && pyEq (getPy r.scheme) (PyVal.str "exact")) then
    Option.some "invalid_scheme"
  else if pn ≠ rn then Option.some "invalid_network"
  else if ¬ pyEq (PyVal.str (pyStr (p.auth.toAddr.getD (PyVal.str ""))))
        (r.payTo.getD (PyVal.str "")) then
    Option.some "recipient_mismatch"
  else if pyStr (p.auth.value.getD (PyVal.str ""))
      ≠ pyStr (r.maxAmountRequired.getD (PyVal.str "")) then
    Option.some "amount_mismatch"
  else if now < va then Option.some "payment_not_yet_valid"
  else if vb ≠ 0 ∧ now > vb then Option.some "payment_expired"
  else if used.contains (nonceStr p) then Option.some "nonce_already_used"
  else if sigReason.isSome then sigReason
  else if balOk = false then Option.some "insufficient_balance"
  else Option.none

/-- The Solana cascade and ordered check list agree. -/
theorem solanaFirstReason_eq_findSome (now : Int) (used : List String)
    (p : Payment) (r : Requirements) (nver : Int) (pn rn : String) (va vb : Int)
    (sigReason : Option String) (balOk : Bool) :
    solanaFirstReason now used p r nver pn rn va vb sigReason balOk
      = (solanaOrderedChecks now used p r nver pn rn va vb sigReason balOk).findSome? id := by
  unfold solanaFirstReason solanaOrderedChecks
  cases sigReason <;>
    simp [findSome_ite_cons, findSome_some_cons, findSome_none_cons, findSome_nil]

/-- `solanaVerify` reports exactly the first failing check of the ordered
cascade once the string conversions and the balance step are known not to
raise. -/
theorem solanaVerify_eq_firstReason (env : SolanaVerifyEnv) (cfg : LocalVerifyConfig)
    (now : Int) (used : List String) (p : Payment) (r : Requirements)
    (nver : Int) (pn rn : String) (va vb : Int) (sigReason : Option String) (balOk : Bool)
    (h1 : pyInt (p.x402Version.getD (PyVal.int 0)) = Except.ok nver)
    (h2 : pyLowerE (p.network.getD (PyVal.str "")) = Except.ok pn)
    (h3 : pyLowerE (r.network.getD (PyVal.str "")) = Except.ok rn)
    (h4 : intOfStrOrZero (p.auth.validAfter.getD (PyVal.str "0")) = Except.ok va)
    (h5 : intOfStrOrZero (p.auth.validBefore.getD (PyVal.str "0")) = Except.ok vb)
    (h6 : solanaSignatureStep env (p.signature.getD (PyVal.str ""))
            (pyStr (p.auth.fromAddr.getD (PyVal.str ""))) = Except.ok sigReason)
    (h7 : solanaBalanceStep env cfg (pyStr (p.auth.fromAddr.getD (PyVal.str ""))) r
            (pyStr (p.auth.value.getD (PyVal.str ""))) = Except.ok balOk) :
    solanaVerify env cfg now used p r
      = reasonOutcome used p
          (Option.some (PyVal.str (pyStr (p.auth.fromAddr.getD (PyVal.str "")))))
          (solanaFirstReason now used p r nver pn rn va vb sigReason balOk) := by
  unfold solanaVerify solanaVerifyCore solanaFirstReason
  simp only [h1, h2, h3, h4, h5, h6, h7]
  cases sigReason <;>
    simp only [apply_ite (catchVerify used),
      apply_ite (reasonOutcome used p
        (Option.some (PyVal.str (pyStr (p.auth.fromAddr.getD (PyVal.str "")))))),
      catchVerify_ok, reasonOutcome_some, reasonOutcome_none, invalidRes] <;>
    simp

/-! Helper lemmas about nonce handling and reason strings. -/

/-- A falsy nonce stringifies to the empty string. -/
theorem nonceStr_of_falsy (p : Payment) (h : pyTruthy (getPy p.auth.nonce) = false) :
    nonceStr p = "" := by
  unfold nonceStr
  simp [h]

/-- A wrapped unexpected-exception reason is never the replay reason. -/
theorem unexpected_ne_nonce (e : String) :
    "unexpected_verify_error: " ++ e ≠ "nonce_already_used" := by
  obtain ⟨l⟩ := e
  intro h
  have h2 : ("unexpected_verify_error: ".data ++ l) = "nonce_already_used".data :=
    congrArg String.data h
  simp at h2

/-- A Solana signature-parse failure reason is never a timing reason nor the
replay reason. -/
theorem invalid_sig_ne (e : String) :
    "invalid_signature: " ++ e ≠ "payment_expired"
    ∧ "invalid_signature: " ++ e ≠ "payment_not_yet_valid"
    ∧ "invalid_signature: " ++ e ≠ "nonce_already_used" := by
  obtain ⟨l⟩ := e
  refine ⟨?_, ?_, ?_⟩ <;> intro h <;>
    first
    | (have h2 : ("invalid_signature: ".data ++ l) = "payment_expired".data :=
         congrArg String.data h
       simp at h2)
    | (have h2 : ("invalid_signature: ".data ++ l) = "payment_not_yet_valid".data :=
         congrArg String.data h
       simp at h2)
    | (have h2 : ("invalid_signature: ".data ++ l) = "nonce_already_used".data :=
         congrArg String.data h
       simp at h2)

/-- `catchVerify` on an exception. -/
theorem catchVerify_err (used : List String) (e : String) :
    catchVerify used (Except.error e)
      = ({ isValid := false,
           invalidReason := Option.some ("unexpected_verify_error: " ++ e) }, used) := rfl

/-- All checks of the EVM verify algorithm except the nonce check, as one
predicate: the conversions succeed and every check passes. -/
def evmPasses (env : EvmVerifyEnv) (cfg : LocalVerifyConfig) (now : Int)
    (p : Payment) (r : Requirements) : Prop :=
  pyInt (p.x402Version.getD (PyVal.int 0)) = Except.ok 1
  ∧ (pyEq (getPy p.scheme) (PyVal.str "exact")
     && pyEq (getPy r.scheme) (PyVal.str "exact")) = true
  ∧ pyEq (getPy p.network) (getPy r.network) = true
  ∧ strLower (pyStr (p.auth.toAddr.getD (PyVal.str "")))
      = strLower (pyStr (r.payTo.getD (PyVal.str "")))
  ∧ pyStr (p.auth.value.getD (PyVal.str ""))
      = pyStr (r.maxAmountRequired.getD (PyVal.str ""))
  ∧ (∃ va, intOfStrOrZero (p.auth.validAfter.getD (PyVal.str "0")) = Except.ok va
       ∧ ¬ now < va)
  ∧ (∃ vb, intOfStrOrZero (p.auth.validBefore.getD (PyVal.str "0")) = Except.ok vb
       ∧ ¬ (vb ≠ 0 ∧ now > vb))
  ∧ evmSignatureStep env (r.extra.getD {}) p.auth (p.signature.getD (PyVal.str ""))
      = Except.ok true
  ∧ evmBalanceStep env cfg p.auth r p.network (pyStr (p.auth.value.getD (PyVal.str "")))
      = Except.ok true

/-- A failing x402Version conversion raises, and the outer handler wraps it. -/
theorem evmVerify_verErr (env : EvmVerifyEnv) (cfg : LocalVerifyConfig)
    (now : Int) (used : List String) (p : Payment) (r : Requirements) (e : String)
    (h : pyInt (p.x402Version.getD (PyVal.int 0)) = Except.error e) :
    evmVerify env cfg now used p r
      = ({ isValid := false,
           invalidReason := Option.some ("unexpected_verify_error: " ++ e) }, used) := by
  unfold evmVerify evmVerifyCore
  simp only [h]
  rfl

/-- A failing validAfter conversion yields an invalid result (possibly a
wrapped exception) with the nonce set unchanged. -/
theorem evmVerify_vaErr (env : EvmVerifyEnv) (cfg : LocalVerifyConfig)
    (now : Int) (used : List String) (p : Payment) (r : Requirements)
    (nver : Int) (e : String)
    (hver : pyInt (p.x402Version.getD (PyVal.int 0)) = Except.ok nver)
    (h : intOfStrOrZero (p.auth.validAfter.getD (PyVal.str "0")) = Except.error e) :
    (evmVerify env cfg now used p r).1.isValid = false
    ∧ (evmVerify env cfg now used p r).2 = used
    ∧ ((evmVerify env cfg now used p r).1.invalidReason
         = Option.some "nonce_already_used" → used.contains (nonceStr p) = true) := by
  unfold evmVerify evmVerifyCore
  simp only [hver, h]
  split_ifs <;>
    simp_all [catchVerify_ok, catchVerify_err, invalidRes, unexpected_ne_nonce]

/-- A failing validBefore conversion: same conclusion. -/
theorem evmVerify_vbErr (env : EvmVerifyEnv) (cfg : LocalVerifyConfig)
    (now : Int) (used : List String) (p : Payment) (r : Requirements)
    (nver va : Int) (e : String)
    (hver : pyInt (p.x402Version.getD (PyVal.int 0)) = Except.ok nver)
    (hva : intOfStrOrZero (p.auth.validAfter.getD (PyVal.str "0")) = Except.ok va)
    (h : intOfStrOrZero (p.auth.validBefore.getD (PyVal.str "0")) = Except.error e) :
    (evmVerify env cfg now used p r).1.isValid = false
    ∧ (evmVerify env cfg now used p r).2 = used
    ∧ ((evmVerify env cfg now used p r).1.invalidReason
         = Option.some "nonce_already_used" → used.contains (nonceStr p) = true) := by
  unfold evmVerify evmVerifyCore
  simp only [hver, hva, h]
  split_ifs <;>
    simp_all [catchVerify_ok, catchVerify_err, invalidRes, unexpected_ne_nonce]

/-- An exception escaping the signature step: same conclusion. -/
theorem evmVerify_sigErr (env : EvmVerifyEnv) (cfg : LocalVerifyConfig)
    (now : Int) (used : List String) (p : Payment) (r : Requirements)
    (nver va vb : Int) (e : String)
    (hver : pyInt (p.x402Version.getD (PyVal.int 0)) = Except.ok nver)
    (hva : intOfStrOrZero (p.auth.validAfter.getD (PyVal.str "0")) = Except.ok va)
    (hvb : intOfStrOrZero (p.auth.validBefore.getD (PyVal.str "0")) = Except.ok vb)
    (h : evmSignatureStep env (r.extra.getD {}) p.auth (p.signature.getD (PyVal.str ""))
           = Except.error e) :
    (evmVerify env cfg now used p r).1.isValid = false
    ∧ (evmVerify env cfg now used p r).2 = used
    ∧ ((evmVerify env cfg now used p r).1.invalidReason
         = Option.some "nonce_already_used" → used.contains (nonceStr p) = true) := by
  unfold evmVerify evmVerifyCore
  simp only [hver, hva, hvb, h]
  split_ifs <;>
    simp_all [catchVerify_ok, catchVerify_err, invalidRes, unexpected_ne_nonce]

/-- An exception escaping the balance step: same conclusion. -/
theorem evmVerify_balErr (env : EvmVerifyEnv) (cfg : LocalVerifyConfig)
    (now : Int) (used : List String) (p : Payment) (r : Requirements)
    (nver va vb : Int) (sigOk : Bool) (e : String)
    (hver : pyInt (p.x402Version.getD (PyVal.int 0)) = Except.ok nver)
    (hva : intOfStrOrZero (p.auth.validAfter.getD (PyVal.str "0")) = Except.ok va)
    (hvb : intOfStrOrZero (p.auth.validBefore.getD (PyVal.str "0")) = Except.ok vb)
    (hsig : evmSignatureStep env (r.extra.getD {}) p.auth (p.signature.getD (PyVal.str ""))
              = Except.ok sigOk)
    (h : evmBalanceStep env cfg p.auth r p.network (pyStr (p.auth.value.getD (PyVal.str "")))
           = Except.error e) :
    (evmVerify env cfg now used p r).1.isValid = false
    ∧ (evmVerify env cfg now used p r).2 = used
    ∧ ((evmVerify env cfg now used p r).1.invalidReason
         = Option.some "nonce_already_used" → used.contains (nonceStr p) = true) := by
  unfold evmVerify evmVerifyCore
  simp only [hver, hva, hvb, hsig, h]
  split_ifs <;>
    simp_all [catchVerify_ok, catchVerify_err, invalidRes, unexpected_ne_nonce]

set_option maxHeartbeats 1200000 in
/-- The first-reason cascade reports nothing exactly when every check
passes. -/
theorem evmFirstReason_none_iff (now : Int) (used : List String) (p : Payment)
    (r : Requirements) (nver va vb : Int) (sigOk balOk : Bool) :
    evmFirstReason now used p r nver va vb sigOk balOk = Option.none
      ↔ (nver = 1
         ∧ (pyEq (getPy p.scheme) (PyVal.str "exact")
            && pyEq (getPy r.scheme) (PyVal.str "exact")) = true
         ∧ pyEq (getPy p.network) (getPy r.network) = true
         ∧ strLower (pyStr (p.auth.toAddr.getD (PyVal.str "")))
             = strLower (pyStr (r.payTo.getD (PyVal.str "")))
         ∧ pyStr (p.auth.value.getD (PyVal.str ""))
             = pyStr (r.maxAmountRequired.getD (PyVal.str ""))
         ∧ ¬ now < va
         ∧ ¬ (vb ≠ 0 ∧ now > vb)
         ∧ used.contains (nonceStr p) = false
         ∧ sigOk = true
         ∧ balOk = true) := by
  unfold evmFirstReason
  split_ifs <;> simp_all

/-- A valid EVM `verify` outcome certifies that all checks passed, the
nonce was fresh, and the nonce set grew exactly by the stringified nonce. -/
theorem evmVerify_valid_inv (env : EvmVerifyEnv) (cfg : LocalVerifyConfig)
    (now : Int) (used : List String) (p : Payment) (r : Requirements)
    (h : (evmVerify env cfg now used p r).1.isValid = true) :
    evmPasses env cfg now p r
    ∧ used.contains (nonceStr p) = false
    ∧ (evmVerify env cfg now used p r)
        = ({ isValid := true, payer := p.auth.fromAddr },
           if nonceStr p ≠ "" then nonceStr p :: used else used) := by
  cases hver : pyInt (p.x402Version.getD (PyVal.int 0)) with
  | error e => rw [evmVerify_verErr env cfg now used p r e hver] at h; simp at h
  | ok nver =>
  cases hva : intOfStrOrZero (p.auth.validAfter.getD (PyVal.str "0")) with
  | error e => exact absurd h (by simp [(evmVerify_vaErr env cfg now used p r nver e hver hva).1])
  | ok va =>
  cases hvb : intOfStrOrZero (p.auth.validBefore.getD (PyVal.str "0")) with
  | error e => exact absurd h (by simp [(evmVerify_vbErr env cfg now used p r nver va e hver hva hvb).1])
  | ok vb =>
  cases hsig : evmSignatureStep env (r.extra.getD {}) p.auth (p.signature.getD (PyVal.str "")) with
  | error e => exact absurd h (by simp [(evmVerify_sigErr env cfg now used p r nver va vb e hver hva hvb hsig).1])
  | ok sigOk =>
  cases hbal : evmBalanceStep env cfg p.auth r p.network (pyStr (p.auth.value.getD (PyVal.str ""))) with
  | error e => exact absurd h (by simp [(evmVerify_balErr env cfg now used p r nver va vb sigOk e hver hva hvb hsig hbal).1])
  | ok balOk =>
    have hre := evmVerify_eq_firstReason env cfg now used p r nver va vb sigOk balOk
      hver hva hvb hsig hbal
    rw [hre] at h ⊢
    cases hfr : evmFirstReason now used p r nver va vb sigOk balOk with
    | some reason => rw [hfr, reasonOutcome_some] at h; simp at h
    | none =>
      rw [reasonOutcome_none]
      obtain ⟨e1, e2, e3, e4, e5, e6, e7, e8, e9, e10⟩ :=
        (evmFirstReason_none_iff now used p r nver va vb sigOk balOk).mp hfr
      subst e1 e9 e10
      exact ⟨⟨hver, e2, e3, e4, e5, ⟨va, hva, e6⟩, ⟨vb, hvb, e7⟩, hsig, hbal⟩, e8, rfl⟩

/-- An invalid EVM `verify` outcome leaves the nonce set unchanged (failed
attempts stay retryable). -/
theorem evmVerify_invalid_preserves (env : EvmVerifyEnv) (cfg : LocalVerifyConfig)
    (now : Int) (used : List String) (p : Payment) (r : Requirements)
    (h : (evmVerify env cfg now used p r).1.isValid = false) :
    (evmVerify env cfg now used p r).2 = used := by
  cases hver : pyInt (p.x402Version.getD (PyVal.int 0)) with
  | error e => rw [evmVerify_verErr env cfg now used p r e hver]
  | ok nver =>
  cases hva : intOfStrOrZero (p.auth.validAfter.getD (PyVal.str "0")) with
  | error e => exact (evmVerify_vaErr env cfg now used p r nver e hver hva).2.1
  | ok va =>
  cases hvb : intOfStrOrZero (p.auth.validBefore.getD (PyVal.str "0")) with
  | error e => exact (evmVerify_vbErr env cfg now used p r nver va e hver hva hvb).2.1
  | ok vb =>
  cases hsig : evmSignatureStep env (r.extra.getD {}) p.auth (p.signature.getD (PyVal.str "")) with
  | error e => exact (evmVerify_sigErr env cfg now used p r nver va vb e hver hva hvb hsig).2.1
  | ok sigOk =>
  cases hbal : evmBalanceStep env cfg p.auth r p.network (pyStr (p.auth.value.getD (PyVal.str ""))) with
  | error e => exact (evmVerify_balErr env cfg now used p r nver va vb sigOk e hver hva hvb hsig hbal).2.1
  | ok balOk =>
    have hre := evmVerify_eq_firstReason env cfg now used p r nver va vb sigOk balOk
      hver hva hvb hsig hbal
    rw [hre] at h ⊢
    cases hfr : evmFirstReason now used p r nver va vb sigOk balOk with
    | some reason => rw [reasonOutcome_some]
    | none => rw [hfr, reasonOutcome_none] at h; simp at h

/-- A fresh, non-empty nonce: all checks passing means the first `verify`
succeeds and records the nonce, and the identical repeated call is rejected
with `nonce_already_used`, leaving the set unchanged. -/
theorem evmVerify_pass_then_replay (env : EvmVerifyEnv) (cfg : LocalVerifyConfig)
    (now : Int) (used : List String) (p : Payment) (r : Requirements)
    (hp : evmPasses env cfg now p r)
    (hfresh : used.contains (nonceStr p) = false)
    (hnz : nonceStr p ≠ "") :
    evmVerify env cfg now used p r
      = ({ isValid := true, payer := p.auth.fromAddr }, nonceStr p :: used)
    ∧ evmVerify env cfg now (nonceStr p :: used) p r
      = ({ isValid := false, invalidReason := Option.some "nonce_already_used" },
         nonceStr p :: used) := by
  obtain ⟨hver, e2, e3, e4, e5, ⟨va, hva, e6⟩, ⟨vb, hvb, e7⟩, hsig, hbal⟩ := hp
  constructor
  · rw [evmVerify_eq_firstReason env cfg now used p r 1 va vb true true
      hver hva hvb hsig hbal]
    have : evmFirstReason now used p r 1 va vb true true = Option.none :=
      (evmFirstReason_none_iff now used p r 1 va vb true true).mpr
        ⟨rfl, e2, e3, e4, e5, e6, e7, hfresh, rfl, rfl⟩
    rw [this, reasonOutcome_none, if_pos hnz]
  · rw [evmVerify_eq_firstReason env cfg now (nonceStr p :: used) p r 1 va vb true true
      hver hva hvb hsig hbal]
    have : evmFirstReason now (nonceStr p :: used) p r 1 va vb true true
        = Option.some "nonce_already_used" := by
      unfold evmFirstReason
      simp [e2, e3, e4, e5, e6, e7]
    rw [this, reasonOutcome_some]

set_option maxHeartbeats 1200000 in
/-- The EVM cascade reports `nonce_already_used` only when the stringified
nonce is already in the set. -/
theorem evmFirstReason_nonce (now : Int) (used : List String) (p : Payment)
    (r : Requirements) (nver va vb : Int) (sigOk balOk : Bool)
    (h : evmFirstReason now used p r nver va vb sigOk balOk
           = Option.some "nonce_already_used") :
    used.contains (nonceStr p) = true := by
  unfold evmFirstReason at h
  split_ifs at h <;> simp_all

/-- `solanaSignatureStep` catches its own exceptions and never raises. -/
theorem solanaSignatureStep_ne_err (env : SolanaVerifyEnv) (sig : PyVal)
    (fa e : String) : solanaSignatureStep env sig fa ≠ Except.error e := by
  unfold solanaSignatureStep
  split_ifs <;>
    first
    | (cases hp : env.parseSignature sig fa <;> simp [hp])
    | simp

/-- The signature stub either falls through or reports an
`invalid_signature: ...` parse failure. -/
theorem solanaSignatureStep_shape (env : SolanaVerifyEnv) (sig : PyVal)
    (fa : String) (o : Option String)
    (h : solanaSignatureStep env sig fa = Except.ok o) :
    o = Option.none ∨ ∃ e, o = Option.some ("invalid_signature: " ++ e) := by
  unfold solanaSignatureStep at h
  split_ifs at h
  · cases hp : env.parseSignature sig fa with
    | error e =>
      rw [hp] at h
      simp only [Except.ok.injEq] at h
      exact Or.inr ⟨e, h.symm⟩
    | ok u =>
      rw [hp] at h
      simp only [Except.ok.injEq] at h
      exact Or.inl h.symm
  · simp only [Except.ok.injEq] at h
    exact Or.inl h.symm
  · simp only [Except.ok.injEq] at h
    exact Or.inl h.symm

set_option maxHeartbeats 1600000 in
/-- The Solana cascade reports `nonce_already_used` only when the
stringified nonce is already in the set (given the shape of the signature
step's outcome). -/
theorem solanaFirstReason_nonce (now : Int) (used : List String) (p : Payment)
    (r : Requirements) (nver : Int) (pn rn : String) (va vb : Int)
    (sigReason : Option String) (balOk : Bool)
    (hshape : sigReason = Option.none
      ∨ ∃ e, sigReason = Option.some ("invalid_signature: " ++ e))
    (h : solanaFirstReason now used p r nver pn rn va vb sigReason balOk
           = Option.some "nonce_already_used") :
    used.contains (nonceStr p) = true := by
  unfold solanaFirstReason at h
  rcases hshape with hs | ⟨e, hs⟩
  · subst hs
    split_ifs at h <;> simp_all
  · subst hs
    split_ifs at h <;> simp_all [(invalid_sig_ne e).2.2]

/-- A failing Solana x402Version conversion is wrapped by the handler. -/
theorem solanaVerify_verErr (env : SolanaVerifyEnv) (cfg : LocalVerifyConfig)
    (now : Int) (used : List String) (p : Payment) (r : Requirements) (e : String)
    (h : pyInt (p.x402Version.getD (PyVal.int 0)) = Except.error e) :
    solanaVerify env cfg now used p r
      = ({ isValid := false,
           invalidReason := Option.some ("unexpected_verify_error: " ++ e) }, used) := by
  unfold solanaVerify solanaVerifyCore
  simp only [h]
  rfl

/-- A non-string payment network raises in `.lower()`: invalid result,
nonce set unchanged, replay reason impossible. -/
theorem solanaVerify_pnErr (env : SolanaVerifyEnv) (cfg : LocalVerifyConfig)
    (now : Int) (used : List String) (p : Payment) (r : Requirements)
    (nver : Int) (e : String)
    (hver : pyInt (p.x402Version.getD (PyVal.int 0)) = Except.ok nver)
    (h : pyLowerE (p.network.getD (PyVal.str "")) = Except.error e) :
    (solanaVerify env cfg now used p r).1.isValid = false
    ∧ (solanaVerify env cfg now used p r).2 = used
    ∧ ((solanaVerify env cfg now used p r).1.invalidReason
         = Option.some "nonce_already_used" → used.contains (nonceStr p) = true) := by
  unfold solanaVerify solanaVerifyCore
  simp only [hver, h]
  split_ifs <;>
    simp_all [catchVerify_ok, catchVerify_err, invalidRes, unexpected_ne_nonce]

/-- A non-string requirements network: same conclusion. -/
theorem solanaVerify_rnErr (env : SolanaVerifyEnv) (cfg : LocalVerifyConfig)
    (now : Int) (used : List String) (p : Payment) (r : Requirements)
    (nver : Int) (pn : String) (e : String)
    (hver : pyInt (p.x402Version.getD (PyVal.int 0)) = Except.ok nver)
    (hpn : pyLowerE (p.network.getD (PyVal.str "")) = Except.ok pn)
    (h : pyLowerE (r.network.getD (PyVal.str "")) = Except.error e) :
    (solanaVerify env cfg now used p r).1.isValid = false
    ∧ (solanaVerify env cfg now used p r).2 = used
    ∧ ((solanaVerify env cfg now used p r).1.invalidReason
         = Option.some "nonce_already_used" → used.contains (nonceStr p) = true) := by
  unfold solanaVerify solanaVerifyCore
  simp only [hver, hpn, h]
  split_ifs <;>
    simp_all [catchVerify_ok, catchVerify_err, invalidRes, unexpected_ne_nonce]

/-- A failing Solana validAfter conversion: same conclusion. -/
theorem solanaVerify_vaErr (env : SolanaVerifyEnv) (cfg : LocalVerifyConfig)
    (now : Int) (used : List String) (p : Payment) (r : Requirements)
    (nver : Int) (pn rn : String) (e : String)
    (hver : pyInt (p.x402Version.getD (PyVal.int 0)) = Except.ok nver)
    (hpn : pyLowerE (p.network.getD (PyVal.str "")) = Except.ok pn)
    (hrn : pyLowerE (r.network.getD (PyVal.str "")) = Except.ok rn)
    (h : intOfStrOrZero (p.auth.validAfter.getD (PyVal.str "0")) = Except.error e) :
    (solanaVerify env cfg now used p r).1.isValid = false
    ∧ (solanaVerify env cfg now used p r).2 = used
    ∧ ((solanaVerify env cfg now used p r).1.invalidReason
         = Option.some "nonce_already_used" → used.contains (nonceStr p) = true) := by
  unfold solanaVerify solanaVerifyCore
  simp only [hver, hpn, hrn, h]
  split_ifs <;>
    simp_all [catchVerify_ok, catchVerify_err, invalidRes, unexpected_ne_nonce]

/-- A failing Solana validBefore conversion: same conclusion. -/
theorem solanaVerify_vbErr (env : SolanaVerifyEnv) (cfg : LocalVerifyConfig)
    (now : Int) (used : List String) (p : Payment) (r : Requirements)
    (nver : Int) (pn rn : String) (va : Int) (e : String)
    (hver : pyInt (p.x402Version.getD (PyVal.int 0)) = Except.ok nver)
    (hpn : pyLowerE (p.network.getD (PyVal.str "")) = Except.ok pn)
    (hrn : pyLowerE (r.network.getD (PyVal.str "")) = Except.ok rn)
    (hva : intOfStrOrZero (p.auth.validAfter.getD (PyVal.str "0")) = Except.ok va)
    (h : intOfStrOrZero (p.auth.validBefore.getD (PyVal.str "0")) = Except.error e) :
    (solanaVerify env cfg now used p r).1.isValid = false
    ∧ (solanaVerify env cfg now used p r).2 = used
    ∧ ((solanaVerify env cfg now used p r).1.invalidReason
         = Option.some "nonce_already_used" → used.contains (nonceStr p) = true) := by
  unfold solanaVerify solanaVerifyCore
  simp only [hver, hpn, hrn, hva, h]
  split_ifs <;>
    simp_all [catchVerify_ok, catchVerify_err, invalidRes, unexpected_ne_nonce]

set_option maxHeartbeats 1600000 in
/-- An exception escaping the Solana balance step: same conclusion. -/
theorem solanaVerify_balErr (env : SolanaVerifyEnv) (cfg : LocalVerifyConfig)
    (now : Int) (used : List String) (p : Payment) (r : Requirements)
    (nver : Int) (pn rn : String) (va vb : Int) (sigReason : Option String) (e : String)
    (hver : pyInt (p.x402Version.getD (PyVal.int 0)) = Except.ok nver)
    (hpn : pyLowerE (p.network.getD (PyVal.str "")) = Except.ok pn)
    (hrn : pyLowerE (r.network.getD (PyVal.str "")) = Except.ok rn)
    (hva : intOfStrOrZero (p.auth.validAfter.getD (PyVal.str "0")) = Except.ok va)
    (hvb : intOfStrOrZero (p.auth.validBefore.getD (PyVal.str "0")) = Except.ok vb)
    (hsig : solanaSignatureStep env (p.signature.getD (PyVal.str ""))
              (pyStr (p.auth.fromAddr.getD (PyVal.str ""))) = Except.ok sigReason)
    (hshape : sigReason = Option.none
      ∨ ∃ e2, sigReason = Option.some ("invalid_signature: " ++ e2))
    (h : solanaBalanceStep env cfg (pyStr (p.auth.fromAddr.getD (PyVal.str ""))) r
           (pyStr (p.auth.value.getD (PyVal.str ""))) = Except.error e) :
    (solanaVerify env cfg now used p r).1.isValid = false
    ∧ (solanaVerify env cfg now used p r).2 = used
    ∧ ((solanaVerify env cfg now used p r).1.invalidReason
         = Option.some "nonce_already_used" → used.contains (nonceStr p) = true) := by
  unfold solanaVerify solanaVerifyCore
  simp only [hver, hpn, hrn, hva, hvb, hsig, h]
  rcases hshape with hs | ⟨e2, hs⟩
  · subst hs
    split_ifs <;>
      simp_all [catchVerify_ok, catchVerify_err, invalidRes, unexpected_ne_nonce]
  · subst hs
    split_ifs <;>
      simp_all [catchVerify_ok, catchVerify_err, invalidRes, unexpected_ne_nonce,
        (invalid_sig_ne e2).2.2]

/-! Solana fixtures. -/

/-- A Solana environment whose libraries are present and whose
signature-parsing succeeds (the bytes decode, regardless of who signed). -/
def solEnvParseOk : SolanaVerifyEnv :=
  { soldersAvailable := true
    parseSignature := fun _ _ => Except.ok ()
    balanceSufficient := fun _ _ _ => true }

/-- A Solana payment whose signature bytes parse but were not produced by
`from` (the parse oracle does not depend on the message at all). -/
def solPayForged : Payment :=
  { x402Version := Option.some (PyVal.int 1)
    scheme := Option.some (PyVal.str "exact")
    network := Option.some (PyVal.str "solana-devnet")
    signature := Option.some (PyVal.str "c2lnbmVkLWJ5LXNvbWVvbmUtZWxzZQ")
    auth := { fromAddr := Option.some (PyVal.str "Payer111")
              toAddr := Option.some (PyVal.str "Merchant1")
              value := Option.some (PyVal.str "10000")
              validAfter := Option.some (PyVal.str "0")
              validBefore := Option.some (PyVal.str "0")
              nonce := Option.some (PyVal.str "nonce-1") } }

/-- Requirements matching `solPayForged`. -/
def solReqBase : Requirements :=
  { scheme := Option.some (PyVal.str "exact")
    network := Option.some (PyVal.str "solana-devnet")
    payTo := Option.some (PyVal.str "Merchant1")
    maxAmountRequired := Option.some (PyVal.str "10000")
    asset := Option.some (PyVal.str "USDCMint1")
    extra := Option.none }

/-- Claim C1: the spec requires that a payment whose signature was not
produced by `from` is never accepted (Ed25519 verification for Solana).
The Solana facilitator only PARSES the signature and public key; its
parse oracle receives neither the message nor any key material, so after a
successful parse the payment is accepted outright — a signature forged by
anyone is accepted as valid, contradicting the claim and the facilitator's
own docstring ("Verifies Ed25519 signatures"). -/
theorem C1_solana_signature_never_verified :
    (solanaVerify solEnvParseOk {} 1700000000 [] solPayForged solReqBase).1
      = { isValid := true, payer := Option.some (PyVal.str "Payer111") } := by decide

/-- The payment of `C2_counterexample`: identical to `payBase` but with the
falsy nonce `0`. -/
def payNonceZero : Payment :=
  { payBase with auth := { payBase.auth with nonce := Option.some (PyVal.int 0) } }

/-- Claim C2, counterexample: with the falsy nonce `0` the second `verify`
with the identical nonce is again valid, not `nonce_already_used`. -/
theorem C2_counterexample :
    (evmVerify evmEnvNoLib {} 1000 [] payNonceZero reqBase).1.isValid = true
    ∧ (evmVerify evmEnvNoLib {} 1000
         (evmVerify evmEnvNoLib {} 1000 [] payNonceZero reqBase).2
         payNonceZero reqBase).1.isValid = true
    ∧ (evmVerify evmEnvNoLib {} 1000
         (evmVerify evmEnvNoLib {} 1000 [] payNonceZero reqBase).2
         payNonceZero reqBase).1.invalidReason
        ≠ Option.some "nonce_already_used" := by decide

/-- Claim C2 (amended): for every otherwise-valid EVM payment payload WHOSE
NONCE STRINGIFIES TO A NON-EMPTY STRING, verifying twice with the identical
nonce returns valid first and `nonce_already_used` second; and the nonce is
recorded only on success — an invalid verification leaves the nonce set
unchanged, so the nonce stays retryable. -/
theorem C2_nonce_idempotence_amended :
    (∀ (env : EvmVerifyEnv) (cfg : LocalVerifyConfig) (now : Int)
       (used : List String) (p : Payment) (r : Requirements),
       evmPasses env cfg now p r →
       used.contains (nonceStr p) = false →
       nonceStr p ≠ "" →
       evmVerify env cfg now used p r
         = ({ isValid := true, payer := p.auth.fromAddr }, nonceStr p :: used)
       ∧ evmVerify env cfg now (nonceStr p :: used) p r
         = ({ isValid := false, invalidReason := Option.some "nonce_already_used" },
            nonceStr p :: used))
    ∧ (∀ (env : EvmVerifyEnv) (cfg : LocalVerifyConfig) (now : Int)
       (used : List String) (p : Payment) (r : Requirements),
       (evmVerify env cfg now used p r).1.isValid = false →
       (evmVerify env cfg now used p r).2 = used) :=
  ⟨fun env cfg now used p r hp hf hnz =>
     evmVerify_pass_then_replay env cfg now used p r hp hf hnz,
   fun env cfg now used p r h =>
     evmVerify_invalid_preserves env cfg now used p r h⟩

/-- Witness for `C2_nonce_idempotence_amended` at a concrete payment. -/
theorem C2_witness :
    evmVerify evmEnvNoLib {} 1000 [] payBase reqBase
      = ({ isValid := true, payer := Option.some (PyVal.str "0xSender") }, ["0x123"])
    ∧ evmVerify evmEnvNoLib {} 1000 ["0x123"] payBase reqBase
      = ({ isValid := false, invalidReason := Option.some "nonce_already_used" },
         ["0x123"]) := by
  have h := C2_nonce_idempotence_amended.1 evmEnvNoLib {} 1000 [] payBase reqBase
    ⟨rfl, rfl, rfl, rfl, rfl, ⟨0, rfl, by decide⟩, ⟨0, rfl, by decide⟩, rfl, rfl⟩
    (by decide) (by decide)
  exact h

/-- Claim C10: when the authorization nonce is absent or otherwise falsy
(`None`, empty string, numeric `0`, `False`), both local facilitators
stringify it to `""`, never report `nonce_already_used` (the empty string is
never recorded, so it is never found), and never grow the nonce set — the
identical payload passes verification an unlimited number of times. -/
theorem C10_falsy_nonce_inoperative :
    (∀ (env : EvmVerifyEnv) (cfg : LocalVerifyConfig) (now : Int)
       (used : List String) (p : Payment) (r : Requirements),
       pyTruthy (getPy p.auth.nonce) = false →
       used.contains "" = false →
       (evmVerify env cfg now used p r).1.invalidReason
           ≠ Option.some "nonce_already_used"
       ∧ (evmVerify env cfg now used p r).2 = used)
    ∧ (∀ (env : SolanaVerifyEnv) (cfg : LocalVerifyConfig) (now : Int)
       (used : List String) (p : Payment) (r : Requirements),
       pyTruthy (getPy p.auth.nonce) = false →
       used.contains "" = false →
       (solanaVerify env cfg now used p r).1.invalidReason
           ≠ Option.some "nonce_already_used"
       ∧ (solanaVerify env cfg now used p r).2 = used) := by
  constructor
  · intro env cfg now used p r hfal hcont
    have hns : nonceStr p = "" := nonceStr_of_falsy p hfal
    cases hver : pyInt (p.x402Version.getD (PyVal.int 0)) with
    | error e =>
      rw [evmVerify_verErr env cfg now used p r e hver]
      exact ⟨by simp [unexpected_ne_nonce], rfl⟩
    | ok nver =>
    cases hva : intOfStrOrZero (p.auth.validAfter.getD (PyVal.str "0")) with
    | error e =>
      obtain ⟨_, h2, h3⟩ := evmVerify_vaErr env cfg now used p r nver e hver hva
      exact ⟨fun hr => by have := h3 hr; rw [hns] at this; simp_all, h2⟩
    | ok va =>
    cases hvb : intOfStrOrZero (p.auth.validBefore.getD (PyVal.str "0")) with
    | error e =>
      obtain ⟨_, h2, h3⟩ := evmVerify_vbErr env cfg now used p r nver va e hver hva hvb
      exact ⟨fun hr => by have := h3 hr; rw [hns] at this; simp_all, h2⟩
    | ok vb =>
    cases hsig : evmSignatureStep env (r.extra.getD {}) p.auth
        (p.signature.getD (PyVal.str "")) with
    | error e =>
      obtain ⟨_, h2, h3⟩ := evmVerify_sigErr env cfg now used p r nver va vb e
        hver hva hvb hsig
      exact ⟨fun hr => by have := h3 hr; rw [hns] at this; simp_all, h2⟩
    | ok sigOk =>
    cases hbal : evmBalanceStep env cfg p.auth r p.network
        (pyStr (p.auth.value.getD (PyVal.str ""))) with
    | error e =>
      obtain ⟨_, h2, h3⟩ := evmVerify_balErr env cfg now used p r nver va vb sigOk e
        hver hva hvb hsig hbal
      exact ⟨fun hr => by have := h3 hr; rw [hns] at this; simp_all, h2⟩
    | ok balOk =>
      rw [evmVerify_eq_firstReason env cfg now used p r nver va vb sigOk balOk
        hver hva hvb hsig hbal]
      cases hfr : evmFirstReason now used p r nver va vb sigOk balOk with
      | some reason =>
        rw [reasonOutcome_some]
        refine ⟨fun hr => ?_, rfl⟩
        have hrn : reason = "nonce_already_used" := by simpa using hr
        subst hrn
        have := evmFirstReason_nonce now used p r nver va vb sigOk balOk hfr
        rw [hns] at this
        simp_all
      | none =>
        rw [reasonOutcome_none]
        refine ⟨by simp, ?_⟩
        simp [hns]
  · intro env cfg now used p r hfal hcont
    have hns : nonceStr p = "" := nonceStr_of_falsy p hfal
    cases hver : pyInt (p.x402Version.getD (PyVal.int 0)) with
    | error e =>
      rw [solanaVerify_verErr env cfg now used p r e hver]
      exact ⟨by simp [unexpected_ne_nonce], rfl⟩
    | ok nver =>
    cases hpn : pyLowerE (p.network.getD (PyVal.str "")) with
    | error e =>
      obtain ⟨_, h2, h3⟩ := solanaVerify_pnErr env cfg now used p r nver e hver hpn
      exact ⟨fun hr => by have := h3 hr; rw [hns] at this; simp_all, h2⟩
    | ok pn =>
    cases hrn : pyLowerE (r.network.getD (PyVal.str "")) with
    | error e =>
      obtain ⟨_, h2, h3⟩ := solanaVerify_rnErr env cfg now used p r nver pn e hver hpn hrn
      exact ⟨fun hr => by have := h3 hr; rw [hns] at this; simp_all, h2⟩
    | ok rn =>
    cases hva : intOfStrOrZero (p.auth.validAfter.getD (PyVal.str "0")) with
    | error e =>
      obtain ⟨_, h2, h3⟩ := solanaVerify_vaErr env cfg now used p r nver pn rn e
        hver hpn hrn hva
      exact ⟨fun hr => by have := h3 hr; rw [hns] at this; simp_all, h2⟩
    | ok va =>
    cases hvb : intOfStrOrZero (p.auth.validBefore.getD (PyVal.str "0")) with
    | error e =>
      obtain ⟨_, h2, h3⟩ := solanaVerify_vbErr env cfg now used p r nver pn rn va e
        hver hpn hrn hva hvb
      exact ⟨fun hr => by have := h3 hr; rw [hns] at this; simp_all, h2⟩
    | ok vb =>
    cases hsig : solanaSignatureStep env (p.signature.getD (PyVal.str ""))
        (pyStr (p.auth.fromAddr.getD (PyVal.str ""))) with
    | error e => exact absurd hsig (solanaSignatureStep_ne_err env _ _ e)
    | ok sigReason =>
      have hshape := solanaSignatureStep_shape env _ _ sigReason hsig
      cases hbal : solanaBalanceStep env cfg (pyStr (p.auth.fromAddr.getD (PyVal.str ""))) r
          (pyStr (p.auth.value.getD (PyVal.str ""))) with
      | error e =>
        obtain ⟨_, h2, h3⟩ := solanaVerify_balErr env cfg now used p r nver pn rn va vb
          sigReason e hver hpn hrn hva hvb hsig hshape hbal
        exact ⟨fun hr => by have := h3 hr; rw [hns] at this; simp_all, h2⟩
      | ok balOk =>
        rw [solanaVerify_eq_firstReason env cfg now used p r nver pn rn va vb
          sigReason balOk hver hpn hrn hva hvb hsig hbal]
        cases hfr : solanaFirstReason now used p r nver pn rn va vb sigReason balOk with
        | some reason =>
          rw [reasonOutcome_some]
          refine ⟨fun hr => ?_, rfl⟩
          have hrn2 : reason = "nonce_already_used" := by simpa using hr
          subst hrn2
          have := solanaFirstReason_nonce now used p r nver pn rn va vb sigReason balOk
            hshape hfr
          rw [hns] at this
          simp_all
        | none =>
          rw [reasonOutcome_none]
          refine ⟨by simp, ?_⟩
          simp [hns]

/-- Witness for `C10_falsy_nonce_inoperative` at a concrete payment. -/
theorem C10_witness :
    (evmVerify evmEnvNoLib {} 1000 [] payNonceZero reqBase).1.invalidReason
        ≠ Option.some "nonce_already_used"
    ∧ (evmVerify evmEnvNoLib {} 1000 [] payNonceZero reqBase).2 = [] :=
  C10_falsy_nonce_inoperative.1 evmEnvNoLib {} 1000 [] payNonceZero reqBase
    (by decide) (by decide)

/-- Claim C6: both local verifiers report the reason code of the earliest
failing step in the strict order version, scheme, network, recipient,
amount, timing, nonce, signature, balance (expressed as the first `some` of
the ordered check list), and the reason codes of distinct steps are
distinct.  The hypotheses state that the integer/string conversions and the
oracle-backed steps do not raise. -/
theorem C6_strict_order :
    (∀ (env : EvmVerifyEnv) (cfg : LocalVerifyConfig) (now : Int)
       (used : List String) (p : Payment) (r : Requirements)
       (nver va vb : Int) (sigOk balOk : Bool),
       pyInt (p.x402Version.getD (PyVal.int 0)) = Except.ok nver →
       intOfStrOrZero (p.auth.validAfter.getD (PyVal.str "0")) = Except.ok va →
       intOfStrOrZero (p.auth.validBefore.getD (PyVal.str "0")) = Except.ok vb →
       evmSignatureStep env (r.extra.getD {}) p.auth (p.signature.getD (PyVal.str ""))
           = Except.ok sigOk →
       evmBalanceStep env cfg p.auth r p.network (pyStr (p.auth.value.getD (PyVal.str "")))
           = Except.ok balOk →
       evmVerify env cfg now used p r
         = reasonOutcome used p p.auth.fromAddr
             ((evmOrderedChecks now used p r nver va vb sigOk balOk).findSome? id))
    ∧ List.Nodup
        [ "invalid_x402_version", "invalid_scheme", "invalid_network",
          "invalid_exact_evm_payload_recipient_mismatch",
          "invalid_exact_evm_payload_authorization_value",
          "invalid_exact_evm_payload_authorization_valid_after",
          "invalid_exact_evm_payload_authorization_valid_before",
          "nonce_already_used", "invalid_exact_evm_payload_signature",
          "insufficient_balance" ]
    ∧ (∀ (env : SolanaVerifyEnv) (cfg : LocalVerifyConfig) (now : Int)
       (used : List String) (p : Payment) (r : Requirements)
       (nver : Int) (pn rn : String) (va vb : Int)
       (sigReason : Option String) (balOk : Bool),
       pyInt (p.x402Version.getD (PyVal.int 0)) = Except.ok nver →
       pyLowerE (p.network.getD (PyVal.str "")) = Except.ok pn →
       pyLowerE (r.network.getD (PyVal.str "")) = Except.ok rn →
       intOfStrOrZero (p.auth.validAfter.getD (PyVal.str "0")) = Except.ok va →
       intOfStrOrZero (p.auth.validBefore.getD (PyVal.str "0")) = Except.ok vb →
       solanaSignatureStep env (p.signature.getD (PyVal.str ""))
           (pyStr (p.auth.fromAddr.getD (PyVal.str ""))) = Except.ok sigReason →
       solanaBalanceStep env cfg (pyStr (p.auth.fromAddr.getD (PyVal.str ""))) r
           (pyStr (p.auth.value.getD (PyVal.str ""))) = Except.ok balOk →
       solanaVerify env cfg now used p r
         = reasonOutcome used p
             (Option.some (PyVal.str (pyStr (p.auth.fromAddr.getD (PyVal.str "")))))
             ((solanaOrderedChecks now used p r nver pn rn va vb sigReason balOk).findSome? id))
    ∧ List.Nodup
        [ "invalid_x402_version", "invalid_scheme", "invalid_network",
          "recipient_mismatch", "amount_mismatch", "payment_not_yet_valid",
          "payment_expired", "nonce_already_used", "insufficient_balance" ] := by
  refine ⟨?_, by decide, ?_, by decide⟩
  · intro env cfg now used p r nver va vb sigOk balOk h1 h2 h3 h4 h5
    rw [evmVerify_eq_firstReason env cfg now used p r nver va vb sigOk balOk h1 h2 h3 h4 h5,
      evmFirstReason_eq_findSome]
  · intro env cfg now used p r nver pn rn va vb sigReason balOk h1 h2 h3 h4 h5 h6 h7
    rw [solanaVerify_eq_firstReason env cfg now used p r nver pn rn va vb sigReason balOk
      h1 h2 h3 h4 h5 h6 h7, solanaFirstReason_eq_findSome]

/-- The payment of `C6_witness`: authorized value `5000` against a
requirement of `10000`. -/
def payAmount5000 : Payment :=
  { payBase with auth := { payBase.auth with value := Option.some (PyVal.str "5000") } }

/-- Witness for `C6_strict_order`: the amount-mismatch scenario yields the
value/amount reason code. -/
theorem C6_witness :
    evmVerify evmEnvNoLib {} 1000 [] payAmount5000 reqBase
      = ({ isValid := false,
           invalidReason := Option.some "invalid_exact_evm_payload_authorization_value" },
         []) := by
  have h := C6_strict_order.1 evmEnvNoLib {} 1000 [] payAmount5000 reqBase 1 0 0 true true
    rfl rfl rfl rfl rfl
  rw [h]
  decide

/-- The payment of `C7_counterexample`: expired one second before `now`. -/
def payExpired : Payment :=
  { payBase with auth := { payBase.auth with validBefore := Option.some (PyVal.str "999") } }

/-- Claim C7, counterexample: the EVM facilitator rejects an expired payment
with reason `invalid_exact_evm_payload_authorization_valid_before`, not the
`payment_expired` / `payment_not_yet_valid` codes the claim names. -/
theorem C7_counterexample :
    (evmVerify evmEnvNoLib {} 1000 [] payExpired reqBase).1.invalidReason
      = Option.some "invalid_exact_evm_payload_authorization_valid_before"
    ∧ Option.some "invalid_exact_evm_payload_authorization_valid_before"
        ≠ Option.some "payment_expired"
    ∧ Option.some "invalid_exact_evm_payload_authorization_valid_before"
        ≠ Option.some "payment_not_yet_valid" := by decide

/-- All checks before the timing check pass, with successfully converted
window bounds `va`/`vb`, for the EVM verifier. -/
def evmReachesTiming (env : EvmVerifyEnv) (cfg : LocalVerifyConfig)
    (p : Payment) (r : Requirements) (va vb : Int) (sigOk balOk : Bool) : Prop :=
  pyInt (p.x402Version.getD (PyVal.int 0)) = Except.ok 1
  ∧ (pyEq (getPy p.scheme) (PyVal.str "exact")
     && pyEq (getPy r.scheme) (PyVal.str "exact")) = true
  ∧ pyEq (getPy p.network) (getPy r.network) = true
  ∧ strLower (pyStr (p.auth.toAddr.getD (PyVal.str "")))
      = strLower (pyStr (r.payTo.getD (PyVal.str "")))
  ∧ pyStr (p.auth.value.getD (PyVal.str ""))
      = pyStr (r.maxAmountRequired.getD (PyVal.str ""))
  ∧ intOfStrOrZero (p.auth.validAfter.getD (PyVal.str "0")) = Except.ok va
  ∧ intOfStrOrZero (p.auth.validBefore.getD (PyVal.str "0")) = Except.ok vb
  ∧ evmSignatureStep env (r.extra.getD {}) p.auth (p.signature.getD (PyVal.str ""))
      = Except.ok sigOk
  ∧ evmBalanceStep env cfg p.auth r p.network (pyStr (p.auth.value.getD (PyVal.str "")))
      = Except.ok balOk

/-- Same for the Solana verifier. -/
def solanaReachesTiming (env : SolanaVerifyEnv) (cfg : LocalVerifyConfig)
    (p : Payment) (r : Requirements) (pn rn : String) (va vb : Int)
    (sigReason : Option String) (balOk : Bool) : Prop :=
  pyInt (p.x402Version.getD (PyVal.int 0)) = Except.ok 1
  ∧ (pyEq (getPy p.scheme) (PyVal.str "exact")
     && pyEq (getPy r.scheme) (PyVal.str "exact")) = true
  ∧ pyLowerE (p.network.getD (PyVal.str "")) = Except.ok pn
  ∧ pyLowerE (r.network.getD (PyVal.str "")) = Except.ok rn
  ∧ pn = rn
  ∧ pyEq (PyVal.str (pyStr (p.auth.toAddr.getD (PyVal.str ""))))
      (r.payTo.getD (PyVal.str "")) = true
  ∧ pyStr (p.auth.value.getD (PyVal.str ""))
      = pyStr (r.maxAmountRequired.getD (PyVal.str ""))
  ∧ intOfStrOrZero (p.auth.validAfter.getD (PyVal.str "0")) = Except.ok va
  ∧ intOfStrOrZero (p.auth.validBefore.getD (PyVal.str "0")) = Except.ok vb
  ∧ solanaSignatureStep env (p.signature.getD (PyVal.str ""))
      (pyStr (p.auth.fromAddr.getD (PyVal.str ""))) = Except.ok sigReason
  ∧ solanaBalanceStep env cfg (pyStr (p.auth.fromAddr.getD (PyVal.str ""))) r
      (pyStr (p.auth.value.getD (PyVal.str ""))) = Except.ok balOk

/-- Claim C7 (amended): for every payment reaching the timing check, the
timing is accepted iff `validAfter ≤ now` and (`validBefore = 0` or
`now ≤ validBefore`); otherwise the verifier returns ITS CHAIN'S
not-yet-valid / expired reason code
(`invalid_exact_evm_payload_authorization_valid_after` /
`..._valid_before` on EVM, `payment_not_yet_valid` / `payment_expired` on
Solana); at the boundary (with `2 ≤ now`), `validBefore = now - 1` is
rejected as expired and `validBefore = now + 1` passes the timing check. -/
theorem C7_timing_amended :
    (∀ (env : EvmVerifyEnv) (cfg : LocalVerifyConfig) (now : Int)
       (used : List String) (p : Payment) (r : Requirements)
       (va vb : Int) (sigOk balOk : Bool),
       evmReachesTiming env cfg p r va vb sigOk balOk →
       ((now < va →
          evmVerify env cfg now used p r
            = ({ isValid := false,
                 invalidReason :=
                   Option.some "invalid_exact_evm_payload_authorization_valid_after" }, used))
        ∧ (¬ now < va → vb ≠ 0 → now > vb →
          evmVerify env cfg now used p r
            = ({ isValid := false,
                 invalidReason :=
                   Option.some "invalid_exact_evm_payload_authorization_valid_before" }, used))
        ∧ (¬ now < va → (vb = 0 ∨ now ≤ vb) →
          (evmVerify env cfg now used p r).1.invalidReason
              ≠ Option.some "invalid_exact_evm_payload_authorization_valid_after"
          ∧ (evmVerify env cfg now used p r).1.invalidReason
              ≠ Option.some "invalid_exact_evm_payload_authorization_valid_before")
        ∧ (¬ now < va → 2 ≤ now → vb = now - 1 →
          evmVerify env cfg now used p r
            = ({ isValid := false,
                 invalidReason :=
                   Option.some "invalid_exact_evm_payload_authorization_valid_before" }, used))
        ∧ (¬ now < va → 2 ≤ now → vb = now + 1 →
          (evmVerify env cfg now used p r).1.invalidReason
              ≠ Option.some "invalid_exact_evm_payload_authorization_valid_after"
          ∧ (evmVerify env cfg now used p r).1.invalidReason
              ≠ Option.some "invalid_exact_evm_payload_authorization_valid_before")))
    ∧ (∀ (env : SolanaVerifyEnv) (cfg : LocalVerifyConfig) (now : Int)
       (used : List String) (p : Payment) (r : Requirements)
       (pn rn : String) (va vb : Int) (sigReason : Option String) (balOk : Bool),
       solanaReachesTiming env cfg p r pn rn va vb sigReason balOk →
       ((now < va →
          solanaVerify env cfg now used p r
            = ({ isValid := false,
                 invalidReason := Option.some "payment_not_yet_valid" }, used))
        ∧ (¬ now < va → vb ≠ 0 → now > vb →
          solanaVerify env cfg now used p r
            = ({ isValid := false,
                 invalidReason := Option.some "payment_expired" }, used))
        ∧ (¬ now < va → (vb = 0 ∨ now ≤ vb) →
          (solanaVerify env cfg now used p r).1.invalidReason
              ≠ Option.some "payment_not_yet_valid"
          ∧ (solanaVerify env cfg now used p r).1.invalidReason
              ≠ Option.some "payment_expired")
        ∧ (¬ now < va → 2 ≤ now → vb = now - 1 →
          solanaVerify env cfg now used p r
            = ({ isValid := false,
                 invalidReason := Option.some "payment_expired" }, used))
        ∧ (¬ now < va → 2 ≤ now → vb = now + 1 →
          (solanaVerify env cfg now used p r).1.invalidReason
              ≠ Option.some "payment_not_yet_valid"
          ∧ (solanaVerify env cfg now used p r).1.invalidReason
              ≠ Option.some "payment_expired"))) := by
  constructor
  · intro env cfg now used p r va vb sigOk balOk hrt
    obtain ⟨hver, hsch, hnet, hrcp, hamt, hva, hvb, hsig, hbal⟩ := hrt
    have hre := evmVerify_eq_firstReason env cfg now used p r 1 va vb sigOk balOk
      hver hva hvb hsig hbal
    have hrest : ∀ hge : ¬ now < va, ∀ hnb : ¬ (vb ≠ 0 ∧ now > vb),
        (evmVerify env cfg now used p r).1.invalidReason
            ≠ Option.some "invalid_exact_evm_payload_authorization_valid_after"
        ∧ (evmVerify env cfg now used p r).1.invalidReason
            ≠ Option.some "invalid_exact_evm_payload_authorization_valid_before" := by
      intro hge hnb
      rw [hre]
      have heval : evmFirstReason now used p r 1 va vb sigOk balOk
          = (if used.contains (nonceStr p) then Option.some "nonce_already_used"
             else if sigOk = false then Option.some "invalid_exact_evm_payload_signature"
             else if balOk = false then Option.some "insufficient_balance"
             else Option.none) := by
        unfold evmFirstReason
        simp [hsch, hnet, hrcp, hamt, hge, hnb]
      rw [heval]
      split_ifs <;> simp [reasonOutcome]
    refine ⟨?_, ?_, ?_, ?_, ?_⟩
    · intro hlt
      rw [hre]
      have heval : evmFirstReason now used p r 1 va vb sigOk balOk
          = Option.some "invalid_exact_evm_payload_authorization_valid_after" := by
        unfold evmFirstReason
        simp [hsch, hnet, hrcp, hamt, hlt]
      rw [heval, reasonOutcome_some]
    · intro hge hne hgt
      rw [hre]
      have heval : evmFirstReason now used p r 1 va vb sigOk balOk
          = Option.some "invalid_exact_evm_payload_authorization_valid_before" := by
        unfold evmFirstReason
        simp [hsch, hnet, hrcp, hamt, hge, hne, hgt]
      rw [heval, reasonOutcome_some]
    · intro hge hor
      exact hrest hge (by omega)
    · intro hge hnow hvb1
      rw [hre]
      have heval : evmFirstReason now used p r 1 va vb sigOk balOk
          = Option.some "invalid_exact_evm_payload_authorization_valid_before" := by
        unfold evmFirstReason
        have hne : vb ≠ 0 := by omega
        have hgt : now > vb := by omega
        simp [hsch, hnet, hrcp, hamt, hge, hne, hgt]
      rw [heval, reasonOutcome_some]
    · intro hge hnow hvb1
      exact hrest hge (by omega)
  · intro env cfg now used p r pn rn va vb sigReason balOk hrt
    obtain ⟨hver, hsch, hpn, hrn, hpnrn, hrcp, hamt, hva, hvb, hsig, hbal⟩ := hrt
    have hre := solanaVerify_eq_firstReason env cfg now used p r 1 pn rn va vb
      sigReason balOk hver hpn hrn hva hvb hsig hbal
    have hshape := solanaSignatureStep_shape env _ _ sigReason hsig
    have hrest : ∀ hge : ¬ now < va, ∀ hnb : ¬ (vb ≠ 0 ∧ now > vb),
        (solanaVerify env cfg now used p r).1.invalidReason
            ≠ Option.some "payment_not_yet_valid"
        ∧ (solanaVerify env cfg now used p r).1.invalidReason
            ≠ Option.some "payment_expired" := by
      intro hge hnb
      rw [hre]
      have heval : solanaFirstReason now used p r 1 pn rn va vb sigReason balOk
          = (if used.contains (nonceStr p) then Option.some "nonce_already_used"
             else if sigReason.isSome then sigReason
             else if balOk = false then Option.some "insufficient_balance"
             else Option.none) := by
        unfold solanaFirstReason
        simp [hsch, hpnrn, hrcp, hamt, hge, hnb]
      rw [heval]
      rcases hshape with hs | ⟨e, hs⟩
      · subst hs
        split_ifs <;> simp_all [reasonOutcome]
      · subst hs
        split_ifs <;>
          simp_all [reasonOutcome, (invalid_sig_ne e).1, (invalid_sig_ne e).2.1]
    refine ⟨?_, ?_, ?_, ?_, ?_⟩
    · intro hlt
      rw [hre]
      have heval : solanaFirstReason now used p r 1 pn rn va vb sigReason balOk
          = Option.some "payment_not_yet_valid" := by
        unfold solanaFirstReason
        simp [hsch, hpnrn, hrcp, hamt, hlt]
      rw [heval, reasonOutcome_some]
    · intro hge hne hgt
      rw [hre]
      have heval : solanaFirstReason now used p r 1 pn rn va vb sigReason balOk
          = Option.some "payment_expired" := by
        unfold solanaFirstReason
        simp [hsch, hpnrn, hrcp, hamt, hge, hne, hgt]
      rw [heval, reasonOutcome_some]
    · intro hge hor
      exact hrest hge (by omega)
    · intro hge hnow hvb1
      rw [hre]
      have heval : solanaFirstReason now used p r 1 pn rn va vb sigReason balOk
          = Option.some "payment_expired" := by
        unfold solanaFirstReason
        have hne : vb ≠ 0 := by omega
        have hgt : now > vb := by omega
        simp [hsch, hpnrn, hrcp, hamt, hge, hne, hgt]
      rw [heval, reasonOutcome_some]
    · intro hge hnow hvb1
      exact hrest hge (by omega)

/-- Witness for `C7_timing_amended`: the boundary pair at `now = 1000`. -/
theorem C7_witness :
    evmVerify evmEnvNoLib {} 1000 [] payExpired reqBase
      = ({ isValid := false,
           invalidReason :=
             Option.some "invalid_exact_evm_payload_authorization_valid_before" }, []) := by
  have h := (C7_timing_amended.1 evmEnvNoLib {} 1000 [] payExpired reqBase 0 999 true true
    ⟨rfl, rfl, rfl, rfl, rfl, rfl, rfl, rfl, rfl⟩).2.1 (by decide) (by decide) (by decide)
  exact h

/-! Helper lemmas for the path-matching characterization. -/

/-- A string satisfies the code's `endswith('/*')` exactly when it is some
prefix followed by the literal `/*`. -/
theorem strEndsWith_wildcard_iff (pat : String) :
    strEndsWith pat "/*" = true ↔ ∃ pre : String, pat = pre ++ "/*" := by
  constructor
  · intro h
    unfold strEndsWith at h
    rw [ List.isSuffixOf_iff_suffix] at h
    obtain ⟨t, ht⟩ := h
    refine ⟨String.mk t, String.ext ?_⟩
    rw [String.data_append]
    exact ht.symm
  · rintro ⟨pre, rfl⟩
    unfold strEndsWith
    rw [ List.isSuffixOf_iff_suffix, String.data_append]
    exact ⟨pre.data, rfl⟩

/-- Python `pattern[:-2]` on `pre ++ "/*"` recovers `pre`. -/
theorem strDropRight_wildcard (pre : String) :
    strDropRight (pre ++ "/*") 2 = pre := by
  unfold strDropRight
  apply String.ext
  show ((pre ++ "/*").data.take ((pre ++ "/*").data.length - 2)) = pre.data
  rw [String.data_append]
  have h2 : ("/*".data) = ['/', '*'] := rfl
  rw [h2]
  have hl : (pre.data ++ ['/', '*']).length - 2 = pre.data.length := by
    simp
  rw [hl]
  exact List.take_left pre.data ['/', '*']

/-- The code's `startswith` as the Mathlib prefix relation. -/
theorem strStartsWith_iff (s p : String) :
    strStartsWith s p = true ↔ p.data <+: s.data :=
  List.isPrefixOf_iff_prefix

/-- `_build_payment_requirements` succeeds with a non-empty list whenever the
`x402` helpers are unavailable (fallback branch) or
`process_price_to_atomic_amount` converts the configured price cleanly. -/
theorem buildPaymentRequirements_ok (cfg : Config) (env : ProcEnv)
    (hprice : env.x402Available = false ∨
      ∃ t, env.processPrice cfg.price cfg.network = Except.ok t) :
    ∃ reqs, buildPaymentRequirements cfg env = Except.ok reqs ∧ reqs ≠ [] := by
  unfold buildPaymentRequirements
  by_cases hx : env.x402Available = true
  · rcases hprice with hav | ⟨t, ht⟩
    · rw [hav] at hx
      exact absurd hx (by simp)
    · obtain ⟨ma, rest⟩ := t
      obtain ⟨asset, dom⟩ := rest
      simp [hx, ht]
  · simp [hx]

/-! Fixtures for the processor-level witnesses. -/

/-- A configuration protecting `/api/premium/*` with the replay cache on. -/
def cfgEx : Config :=
  { network := "base", price := "$0.01", pay_to_address := "0xReceiver",
    protected_paths := ["/api/premium/*"], replay_cache_enabled := true }

/-- A processor environment with the `x402` helpers unavailable, decoding the
header `good` to `payBase`, and a facilitator that accepts and settles. -/
def procEnvEx : ProcEnv :=
  { x402Available := false
    processPrice := fun _ _ => Except.error "unused"
    decodePayment := fun s => if s = "good" then Except.ok payBase else Except.error "bad header"
    findMatching := fun reqs _ => Except.ok reqs.head?
    facVerify := fun _ _ => { isValid := true, payer := Option.some (PyVal.str "0xSender") }
    facSettle := fun _ _ => { success := true, transaction := Option.some (PyVal.str "0xdeadbeef") }
    encodeSettle := fun _ => "encoded" }

/-- A request for a protected path carrying the payment header `good`. -/
def ctxPay : RequestContext :=
  { path := "/api/premium/data", payment_header := Option.some "good" }

/-- A valid local verification result. -/
def vrValid : VerificationResult :=
  { isValid := true, payer := Option.some (PyVal.str "0xSender") }

/-- An invalid local verification result. -/
def vrInvalid : VerificationResult :=
  { isValid := false, invalidReason := Option.some "invalid_signature" }

/-- A distinguishable remote verification result. -/
def vrRemote : VerificationResult :=
  { isValid := true, payer := Option.some (PyVal.str "0xRemote") }

/-- C4: `HybridFacilitator.verify` returns the local result when it is valid,
retries via the remote facilitator when the local result is invalid and
fallback is enabled, returns the local result unmodified when fallback is
disabled, and falls back to the remote facilitator when the local call
raises. -/
theorem C4_hybrid_fallback :
    ∀ (localVerify : Payment → Requirements → Except String VerificationResult)
      (fallback_to_remote : Bool)
      (remoteV : Payment → Requirements → VerificationResult)
      (p : Payment) (r : Requirements),
      (∀ res, localVerify p r = Except.ok res → res.isValid = true →
        hybridVerify localVerify fallback_to_remote remoteV p r = res)
      ∧ (∀ res, localVerify p r = Except.ok res → res.isValid = false →
          fallback_to_remote = true →
          hybridVerify localVerify fallback_to_remote remoteV p r = remoteV p r)
      ∧ (∀ res, localVerify p r = Except.ok res → res.isValid = false →
          fallback_to_remote = false →
          hybridVerify localVerify fallback_to_remote remoteV p r = res)
      ∧ (∀ e, localVerify p r = Except.error e →
          hybridVerify localVerify fallback_to_remote remoteV p r = remoteV p r) := by
  intro lv fb rv p r
  refine ⟨?_, ?_, ?_, ?_⟩
  · intro res h hv
    unfold hybridVerify
    rw [h]
    simp [hv]
  · intro res h hv hfb
    unfold hybridVerify
    rw [h]
    simp [hv, hfb]
  · intro res h hv hfb
    unfold hybridVerify
    rw [h]
    simp [hv, hfb]
  · intro e h
    unfold hybridVerify
    rw [h]

/-- Witness for `C4_hybrid_fallback`: all four branches at concrete
facilitator behaviours. -/
theorem C4_witness :
    hybridVerify (fun _ _ => Except.ok vrValid) true (fun _ _ => vrRemote)
        payBase reqBase = vrValid
    ∧ hybridVerify (fun _ _ => Except.ok vrInvalid) true (fun _ _ => vrRemote)
        payBase reqBase = vrRemote
    ∧ hybridVerify (fun _ _ => Except.ok vrInvalid) false (fun _ _ => vrRemote)
        payBase reqBase = vrInvalid
    ∧ hybridVerify (fun _ _ => Except.error "connection reset") false (fun _ _ => vrRemote)
        payBase reqBase = vrRemote :=
  ⟨(C4_hybrid_fallback _ true _ payBase reqBase).1 vrValid rfl rfl,
   (C4_hybrid_fallback _ true _ payBase reqBase).2.1 vrInvalid rfl rfl rfl,
   (C4_hybrid_fallback _ false _ payBase reqBase).2.2.1 vrInvalid rfl rfl rfl,
   (C4_hybrid_fallback _ false _ payBase reqBase).2.2.2 "connection reset" rfl⟩

/-- C8: a request whose path matches no protected pattern is allowed with no
facilitator call, and `_is_protected_path` matches exactly when the pattern
list holds the universal `*`, or some pattern equals the path, or some
pattern is a prefix followed by `/*` and the path extends that prefix. -/
theorem C8_path_matching :
    (∀ (cfg : Config) (env : ProcEnv) (ctx : RequestContext),
       isProtectedPath cfg.protected_paths ctx.path = false →
       processRequest cfg env ctx = Except.ok ({ action := "allow" }, 0))
    ∧ (∀ (patterns : List String) (path : String),
       isProtectedPath patterns path = true ↔
         ("*" ∈ patterns ∨ ∃ pat ∈ patterns, pat = path ∨
            ∃ pre : String, pat = pre ++ "/*" ∧ pre.data <+: path.data)) := by
  constructor
  · intro cfg env ctx h
    unfold processRequest
    simp [h]
  · intro patterns path
    unfold isProtectedPath
    by_cases hstar : patterns.contains "*" = true
    · have hm : "*" ∈ patterns := by
        simpa using hstar
      simp [hstar, hm]
    · have hm : "*" ∉ patterns := by
        simpa using hstar
      rw [if_neg hstar, List.any_eq_true]
      constructor
      · rintro ⟨pat, hmem, hf⟩
        refine Or.inr ⟨pat, hmem, ?_⟩
        by_cases hw : strEndsWith pat "/*" = true
        · right
          obtain ⟨pre, rfl⟩ := (strEndsWith_wildcard_iff pat).mp hw
          refine ⟨pre, rfl, ?_⟩
          rw [if_pos hw, strDropRight_wildcard] at hf
          exact (strStartsWith_iff path pre).mp hf
        · left
          rw [if_neg hw] at hf
          exact eq_of_beq hf
      · rintro (hc | ⟨pat, hmem, hcase⟩)
        · exact absurd hc hm
        · refine ⟨pat, hmem, ?_⟩
          rcases hcase with rfl | ⟨pre, rfl, hp⟩
          · by_cases hw : strEndsWith pat "/*" = true
            · rw [if_pos hw]
              obtain ⟨pre, hpre⟩ := (strEndsWith_wildcard_iff pat).mp hw
              rw [hpre, strDropRight_wildcard]
              refine (strStartsWith_iff _ _).mpr ?_
              rw [String.data_append]
              exact ⟨"/*".data, rfl⟩
            · rw [if_neg hw]
              simp
          · have hw : strEndsWith (pre ++ "/*") "/*" = true :=
              (strEndsWith_wildcard_iff _).mpr ⟨pre, rfl⟩
            rw [if_pos hw, strDropRight_wildcard]
            exact (strStartsWith_iff _ _).mpr hp

/-- Witness for `C8_path_matching`: `/public` is not protected under the
pattern list `[/api/premium/*]` and is allowed without a verify call. -/
theorem C8_witness :
    processRequest cfgEx procEnvEx { path := "/public" }
      = Except.ok ({ action := "allow" }, 0) :=
  C8_path_matching.1 cfgEx procEnvEx { path := "/public" } (by decide)

/-- C9: a protected request without a payment header is denied, and the deny
decision carries a non-empty requirements list (provided the unguarded
requirements build does not itself raise: the `x402` helpers are missing or
the configured price converts cleanly). -/
theorem C9_deny_with_requirements :
    ∀ (cfg : Config) (env : ProcEnv) (ctx : RequestContext),
      isProtectedPath cfg.protected_paths ctx.path = true →
      ctx.payment_header = Option.none →
      (env.x402Available = false ∨
        ∃ t, env.processPrice cfg.price cfg.network = Except.ok t) →
      ∃ reqs, processRequest cfg env ctx
          = Except.ok ({ action := "deny", requirements := Option.some reqs,
                         error := Option.some "No X-PAYMENT header provided" }, 0)
        ∧ reqs ≠ [] := by
  intro cfg env ctx hprot hhdr hprice
  obtain ⟨reqs, hb, hne⟩ := buildPaymentRequirements_ok cfg env hprice
  refine ⟨reqs, ?_, hne⟩
  unfold processRequest
  rw [hb]
  simp [hprot, hhdr, pyTruthy]

/-- Witness for `C9_deny_with_requirements`: a protected path with no header
under the fallback environment. -/
theorem C9_witness :
    ∃ reqs, processRequest cfgEx procEnvEx { path := "/api/premium/data" }
        = Except.ok ({ action := "deny", requirements := Option.some reqs,
                       error := Option.some "No X-PAYMENT header provided" }, 0)
      ∧ reqs ≠ [] :=
  C9_deny_with_requirements cfgEx procEnvEx { path := "/api/premium/data" }
    (by decide) rfl (Or.inl rfl)

/-- C5: with the replay cache enabled and a non-empty payment header, calling
`settle_payment` twice returns the identical `SettlementResult` both times
and invokes the facilitator `settle` at most once across the two calls. -/
theorem C5_settle_idempotent :
    ∀ (cfg : Config) (env : ProcEnv) (ctx : RequestContext)
      (cache : List (String × SettlementResult)) (hd : String),
      cfg.replay_cache_enabled = true →
      ctx.payment_header = Option.some hd →
      hd ≠ "" →
      (settlePayment cfg env ctx (settlePayment cfg env ctx cache).2.1).1
          = (settlePayment cfg env ctx cache).1
      ∧ (settlePayment cfg env ctx cache).2.2
          + (settlePayment cfg env ctx (settlePayment cfg env ctx cache).2.1).2.2 ≤ 1 := by
  intro cfg env ctx cache hd hre hhdr hne
  cases hc : getCachedSettlement cache (Option.some hd) with
  | some c =>
    have e1 : settlePayment cfg env ctx cache = (c, cache, 0) := by
      simp [settlePayment, hre, hhdr, hc]
    simp [e1]
  | none =>
    cases hdec : env.decodePayment hd with
    | error e =>
      have e1 : settlePayment cfg env ctx cache
          = ({ success := false, error := Option.some e }, cache, 0) := by
        simp [settlePayment, settlePaymentTry, hre, hhdr, hc, hdec]
      simp [e1]
    | ok payment =>
      cases hbld : buildPaymentRequirements cfg env with
      | error e =>
        have e1 : settlePayment cfg env ctx cache
            = ({ success := false, error := Option.some e }, cache, 0) := by
          simp [settlePayment, settlePaymentTry, hre, hhdr, hc, hdec, hbld]
        simp [e1]
      | ok reqs =>
        cases hsel : (if env.x402Available then env.findMatching reqs payment
                      else Except.ok reqs.head?) with
        | error e =>
          have e1 : settlePayment cfg env ctx cache
              = ({ success := false, error := Option.some e }, cache, 0) := by
            simp [settlePayment, settlePaymentTry, hre, hhdr, hc, hdec, hbld, hsel]
          simp [e1]
        | ok osel =>
          cases osel with
          | none =>
            have e1 : settlePayment cfg env ctx cache
                = ({ success := false,
                     error := Option.some "No matching requirements for settlement" },
                   cache, 0) := by
              simp [settlePayment, settlePaymentTry, hre, hhdr, hc, hdec, hbld, hsel]
            simp [e1]
          | some req =>
            have e1 : settlePayment cfg env ctx cache
                = (settleResultOf env payment req,
                   (hd, settleResultOf env payment req) :: cache, 1) := by
              simp [settlePayment, settlePaymentTry, hre, hhdr, hc, hdec, hbld, hsel, hne]
            have e2 : settlePayment cfg env ctx
                ((hd, settleResultOf env payment req) :: cache)
                = (settleResultOf env payment req,
                   (hd, settleResultOf env payment req) :: cache, 0) := by
              simp [settlePayment, getCachedSettlement, cacheLookup, hre, hhdr, hne,
                    List.find?]
            rw [e1]
            simp [e2]

/-- Witness for `C5_settle_idempotent`: two settlements of the header `good`
starting from an empty cache. -/
theorem C5_witness :
    (settlePayment cfgEx procEnvEx ctxPay (settlePayment cfgEx procEnvEx ctxPay []).2.1).1
        = (settlePayment cfgEx procEnvEx ctxPay []).1
    ∧ (settlePayment cfgEx procEnvEx ctxPay []).2.2
        + (settlePayment cfgEx procEnvEx ctxPay
            (settlePayment cfgEx procEnvEx ctxPay []).2.1).2.2 ≤ 1 :=
  C5_settle_idempotent cfgEx procEnvEx ctxPay [] "good" rfl rfl (by decide)

/-- C3: every exception inside the guarded bodies is caught and converted to
a normal result value — `verify` wraps it as `unexpected_verify_error: e`,
`settle` and `settle_payment` as a failed result carrying the message — and
`process_request` returns a `ProcessingResult` (never raises) whenever the
unguarded `_build_payment_requirements` price conversion does not raise
(the `x402` helpers are missing or the configured price converts cleanly). -/
theorem C3_no_raise :
    (∀ (env : EvmVerifyEnv) (cfg : LocalVerifyConfig) (now : Int)
       (used : List String) (p : Payment) (r : Requirements) (e : String),
       evmVerifyCore env cfg now used p r = Except.error e →
       evmVerify env cfg now used p r
         = ({ isValid := false,
              invalidReason := Option.some ("unexpected_verify_error: " ++ e) }, used))
    ∧ (∀ (env : SolanaVerifyEnv) (cfg : LocalVerifyConfig) (now : Int)
       (used : List String) (p : Payment) (r : Requirements) (e : String),
       solanaVerifyCore env cfg now used p r = Except.error e →
       solanaVerify env cfg now used p r
         = ({ isValid := false,
              invalidReason := Option.some ("unexpected_verify_error: " ++ e) }, used))
    ∧ (∀ (env : EvmSettleEnv) (cfg : LocalSettleConfig) (p : Payment)
         (r : Requirements) (e : String),
       evmSettleCore env cfg p r = Except.error e →
       evmSettle env cfg p r = { success := false, error := Option.some e })
    ∧ (∀ (env : SolanaSettleEnv) (cfg : SolanaSettleConfig) (now : Int)
         (p : Payment) (r : Requirements) (e : String),
       solanaSettleCore env cfg now p r = Except.error e →
       solanaSettle env cfg now p r = { success := false, error := Option.some e })
    ∧ (∀ (cfg : Config) (env : ProcEnv) (ctx : RequestContext)
         (cache : List (String × SettlementResult)) (e : String),
       (if cfg.replay_cache_enabled then getCachedSettlement cache ctx.payment_header
        else Option.none) = Option.none →
       settlePaymentTry cfg env ctx cache = Except.error e →
       settlePayment cfg env ctx cache
         = ({ success := false, error := Option.some e }, cache, 0))
    ∧ (∀ (cfg : Config) (env : ProcEnv) (ctx : RequestContext),
       (env.x402Available = false ∨
         ∃ t, env.processPrice cfg.price cfg.network = Except.ok t) →
       ∀ e, processRequest cfg env ctx ≠ Except.error e) := by
  refine ⟨?_, ?_, ?_, ?_, ?_, ?_⟩
  · intro env cfg now used p r e h
    unfold evmVerify catchVerify
    rw [h]
  · intro env cfg now used p r e h
    unfold solanaVerify catchVerify
    rw [h]
  · intro env cfg p r e h
    unfold evmSettle
    rw [h]
  · intro env cfg now p r e h
    unfold solanaSettle
    rw [h]
  · intro cfg env ctx cache e hc htry
    unfold settlePayment
    rw [hc, htry]
  · intro cfg env ctx hprice e hEq
    by_cases hprot : isProtectedPath cfg.protected_paths ctx.path = true
    · obtain ⟨reqs, hb, -⟩ := buildPaymentRequirements_ok cfg env hprice
      by_cases hhdr : pyTruthy (PyVal.str (ctx.payment_header.getD "")) = true
      · cases hdec : env.decodePayment (ctx.payment_header.getD "") with
        | error e2 =>
          simp [processRequest, hprot, hhdr, hb, hdec] at hEq
        | ok payment =>
          cases hsel : selectRequirements env reqs payment with
          | none =>
            simp [processRequest, hprot, hhdr, hb, hdec, hsel] at hEq
          | some req =>
            by_cases hv : (env.facVerify payment req).isValid = true
            · simp [processRequest, hprot, hhdr, hb, hdec, hsel, hv] at hEq
            · simp [processRequest, hprot, hhdr, hb, hdec, hsel, hv] at hEq
      · simp [processRequest, hprot, hhdr, hb] at hEq
    · simp [processRequest, hprot] at hEq

/-- Witness for `C3_no_raise`: `process_request` on a protected path under
the fallback environment does not raise. -/
theorem C3_witness :
    processRequest cfgEx procEnvEx { path := "/api/premium/data" }
      ≠ Except.error "boom" :=
  C3_no_raise.2.2.2.2.2 cfgEx procEnvEx { path := "/api/premium/data" }
    (Or.inl rfl) "boom"


end X402
